import Mathlib

/-!
Shallow embedding of src/RLWrapper/RLWrapper.cpp, the C-compatible wrapper
around the RL motion-planning library.

External engine components (collision scenes, kinematic and dynamic models,
samplers, verifiers, planners, the XML engine) are out of scope for the
wrapper; their behaviour is supplied through oracle records.  Everything the
wrapper itself computes and stores is translated from the source.  Machine
doubles are modelled as elements of a linear ordered field; pointers to
engine objects are modelled as natural-number identities; a thrown C++
exception is modelled by the `Exc` type, distinguishing exceptions derived
from std::exception from unknown ones.
-/

set_option linter.unusedSectionVars false

namespace RLWrapper

/-- Error codes from RLWrapper.h. -/
def RL_SUCCESS : Int := 0

def RL_ERROR_INVALID_POINTER : Int := -1

def RL_ERROR_INVALID_PARAMETER : Int := -2

def RL_ERROR_LOAD_FAILED : Int := -3

def RL_ERROR_PLANNING_FAILED : Int := -4

def RL_ERROR_NOT_INITIALIZED : Int := -5

def RL_ERROR_EXCEPTION : Int := -6

/-- A thrown C++ exception: either derived from std::exception or unknown. -/
inductive Exc where
  | std : Exc
  | unknown : Exc
deriving DecidableEq

instance {ε β : Type} [DecidableEq ε] [DecidableEq β] : DecidableEq (Except ε β) :=
  fun a b =>
    match a, b with
    | .ok x, .ok y =>
      if h : x = y then isTrue (by rw [h])
      else isFalse (by intro hc; cases hc; exact h rfl)
    | .error x, .error y =>
      if h : x = y then isTrue (by rw [h])
      else isFalse (by intro hc; cases hc; exact h rfl)
    | .ok _, .error _ => isFalse (by intro hc; cases hc)
    | .error _, .ok _ => isFalse (by intro hc; cases hc)

/-- A joint-space configuration (rl::math::Vector). -/
abbrev Config (α : Type) := List α

/-- The rl::plan::SimpleModel wired up by LoadScene: non-owning references to
the kinematics (either via the plain kin view or the dynamic mdl view), the
robot model and the scene, plus the engine-computed degrees of freedom and
the joint-limit validity predicate (which may throw). -/
structure SimpleModel (α : Type) where
  kin : Option Nat
  mdl : Option Nat
  robotModel : Option Nat
  scenePtr : Option Nat
  dof : Nat
  isValid : Config α → Except Exc Bool

/-- Variant-specific parameters set by createPlanner.  The PRM fields degree
and radius are set to the engine maxima in the source and carried here as
unbounded flags. -/
inductive PlannerParams (α : Type) where
  | rrt (delta epsilon : α)
  | rrtConCon (delta epsilon : α)
  | rrtGoalBias (delta epsilon probability : α)
  | prm (degreeUnbounded : Bool) (k : Nat) (radiusUnbounded : Bool)

/-- The delta carried by a planner variant, when the variant has one. -/
def PlannerParams.deltaOf {α : Type} : PlannerParams α → Option α
  | .rrt d _ => some d
  | .rrtConCon d _ => some d
  | .rrtGoalBias d _ _ => some d
  | .prm _ _ _ => none

/-- The epsilon carried by a planner variant, when the variant has one. -/
def PlannerParams.epsilonOf {α : Type} : PlannerParams α → Option α
  | .rrt _ e => some e
  | .rrtConCon _ e => some e
  | .rrtGoalBias _ e _ => some e
  | .prm _ _ _ => none

/-- The persistent rl::plan::Planner object: kind string, variant parameters,
duration in milliseconds, and the bound start and goal vectors. -/
structure PlannerComp (α : Type) where
  kind : String
  params : PlannerParams α
  duration : Int
  startPtr : Option (Config α)
  goalPtr : Option (Config α)

/-- The PlannerState structure from RLWrapper.cpp.  Engine objects are
identities; `kinematics` records the stored object and whether it is a
Dynamic model; `verifier` records the delta the verifier was created with. -/
structure PlannerState (α : Type) where
  scene : Option Nat
  kinematics : Option (Nat × Bool)
  mdl : Option Nat
  model : Option (SimpleModel α)
  robotModel : Option Nat
  initialized : Bool
  planner : Option (PlannerComp α)
  sampler : Bool
  verifier : Option α
  nearestNeighbors : Bool
  optimizer : Bool
  start : Option (Config α)
  goal : Option (Config α)
  plannerType : String
  delta : α
  epsilon : α
  timeoutMs : Int

section Ops

variable {α : Type} [LinearOrderedField α]

/-- The PlannerState constructor: robotModel null, not initialized,
delta 0.1, epsilon 0.001, timeout 30000 ms. -/
def PlannerState.create : PlannerState α :=
  { scene := none, kinematics := none, mdl := none, model := none
    robotModel := none, initialized := false, planner := none
    sampler := false, verifier := none, nearestNeighbors := false
    optimizer := false, start := none, goal := none, plannerType := ""
    delta := 1 / 10, epsilon := 1 / 1000, timeoutMs := 30000 }

/-- Reading dof doubles from a C array pointer (index i reads config[i]). -/
def readConfig (config : Option (Config α)) (dof : Nat) : Config α :=
  (List.range dof).map fun i => (config.getD []).getD i 0

/-- The constrainZAxis helper: overwrite goal(zAxisIndex) with
start(zAxisIndex) when the index is inside the goal vector. -/
def constrainZAxis (goal : Config α) (start : Config α) (zAxisIndex : Int) :
    Config α :=
  if 0 ≤ zAxisIndex ∧ zAxisIndex < (goal.length : Int) then
    goal.set zAxisIndex.toNat (start.getD zAxisIndex.toNat 0)
  else
    goal

/-- Oracle for LoadKinematics: the outcome of rl::mdl::XmlFactory::create
(model identity and whether the result is a Dynamic model), whether the
engine permits viewing that Dynamic model as rl::kin::Kinematics, and the
outcome of rl::kin::Kinematics::create. -/
structure KinEnv where
  factoryCreate : Except Exc (Nat × Bool)
  kinCast : Bool
  kinCreate : Except Exc Nat

/-- Fallback path of LoadKinematics: load as plain Kinematics; a
std::exception maps to LOAD_FAILED, an unknown exception to EXCEPTION. -/
def loadKinFallback (state : PlannerState α) (env : KinEnv) :
    Int × PlannerState α :=
  match env.kinCreate with
  | .ok id => (RL_SUCCESS, { state with kinematics := some (id, false) })
  | .error .std => (RL_ERROR_LOAD_FAILED, state)
  | .error .unknown => (RL_ERROR_EXCEPTION, state)

/-- LoadKinematics: first try the file as a Dynamic model; on success store
the model and its Kinematics view; if the file is not a Dynamic model, or
parsing it as one throws a std::exception, fall back to plain Kinematics. -/
def loadKinematics (state : PlannerState α) (xmlPath : Option String)
    (env : KinEnv) : Int × PlannerState α :=
  if xmlPath.isNone then (RL_ERROR_INVALID_POINTER, state)
  else
    match env.factoryCreate with
    | .ok (id, true) =>
        if env.kinCast then
          (RL_SUCCESS,
            { state with mdl := some id, kinematics := some (id, true) })
        else
          (RL_ERROR_LOAD_FAILED,
            { state with mdl := some id, kinematics := none })
    | .ok (_, false) => loadKinFallback state env
    | .error .std => loadKinFallback state env
    | .error .unknown => (RL_ERROR_EXCEPTION, state)

/-- Oracle for LoadScene: creation and loading of the backend scene, the
number of contained models, the model lookup, the dynamic casts on the scene
type, and the engine-computed planning-model data. -/
structure SceneEnv (α : Type) where
  createSceneOk : Bool
  sceneId : Nat
  loadResult : Except Exc Unit
  numModels : Int
  getModel : Int → Nat
  isDistanceScene : Bool
  isSimpleScene : Bool
  modelDof : Nat
  modelIsValid : Config α → Except Exc Bool

/-- LoadScene: create the backend scene, load the file, select the robot
model by index, build a fresh SimpleModel, wire the kinematics view (dynamic
preferred), robot model and scene into it, and set initialized. -/
def loadScene (state : PlannerState α) (xmlPath : Option String)
    (robotModelIndex : Int) (env : SceneEnv α) : Int × PlannerState α :=
  if xmlPath.isNone then (RL_ERROR_INVALID_POINTER, state)
  else if ¬env.createSceneOk then (RL_ERROR_LOAD_FAILED, state)
  else
    let st1 := { state with scene := some env.sceneId }
    match env.loadResult with
    | .error .std => (RL_ERROR_LOAD_FAILED, st1)
    | .error .unknown => (RL_ERROR_EXCEPTION, st1)
    | .ok _ =>
      if robotModelIndex < 0 ∨ env.numModels ≤ robotModelIndex then
        (RL_ERROR_INVALID_PARAMETER, st1)
      else
        let st2 := { st1 with robotModel := some (env.getModel robotModelIndex) }
        if env.isDistanceScene ∨ env.isSimpleScene then
          let m0 : SimpleModel α :=
            { kin := none, mdl := none, robotModel := none, scenePtr := none
              dof := env.modelDof, isValid := env.modelIsValid }
          let m1 :=
            match st2.kinematics with
            | some (kid, true) => { m0 with mdl := some kid }
            | some (kid, false) => { m0 with kin := some kid }
            | none => m0
          let m2 := { m1 with robotModel := st2.robotModel, scenePtr := st2.scene }
          let st3 := { st2 with model := some m2 }
          if m2.kin.isNone ∧ m2.mdl.isNone then
            (RL_ERROR_NOT_INITIALIZED, st3)
          else if m2.robotModel.isNone ∨ m2.scenePtr.isNone then
            (RL_ERROR_NOT_INITIALIZED, st3)
          else
            (RL_SUCCESS, { st3 with initialized := true })
        else
          (RL_ERROR_LOAD_FAILED, st2)

/-- The createPlanner helper: dispatch on the kind string; unknown strings
yield no planner. -/
def createPlanner (plannerType : String) (delta epsilon : α) :
    Option (PlannerComp α) :=
  if plannerType = "rrt" ∨ plannerType = "RRT" then
    some { kind := plannerType, params := .rrt delta epsilon
           duration := 0, startPtr := none, goalPtr := none }
  else if plannerType = "rrtConnect" ∨ plannerType = "RRTConnect" ∨
          plannerType = "rrtConCon" ∨ plannerType = "RRTConCon" then
    some { kind := plannerType, params := .rrtConCon delta epsilon
           duration := 0, startPtr := none, goalPtr := none }
  else if plannerType = "rrtGoalBias" ∨ plannerType = "RRTGoalBias" then
    some { kind := plannerType, params := .rrtGoalBias delta epsilon (5 / 100)
           duration := 0, startPtr := none, goalPtr := none }
  else if plannerType = "prm" ∨ plannerType = "PRM" then
    some { kind := plannerType, params := .prm true 30 true
           duration := 0, startPtr := none, goalPtr := none }
  else
    none

/-- Whether a kind string names one of the planners createPlanner accepts. -/
def knownPlannerKind (s : String) : Bool :=
  s = "rrt" ∨ s = "RRT" ∨ s = "rrtConnect" ∨ s = "RRTConnect" ∨
  s = "rrtConCon" ∨ s = "RRTConCon" ∨ s = "rrtGoalBias" ∨ s = "RRTGoalBias" ∨
  s = "prm" ∨ s = "PRM"

/-- SetStartConfiguration: null and size checks, lifecycle check, dof check,
then copy the configuration into the stored start vector, validate it with
the planning model, and on success rebind an existing planner. -/
def setStartConfiguration (state : PlannerState α) (config : Option (Config α))
    (configSize : Int) : Int × PlannerState α :=
  if config.isNone then (RL_ERROR_INVALID_POINTER, state)
  else if configSize ≤ 0 then (RL_ERROR_INVALID_PARAMETER, state)
  else if ¬state.initialized then (RL_ERROR_NOT_INITIALIZED, state)
  else
    match state.model with
    | none => (RL_ERROR_NOT_INITIALIZED, state)
    | some m =>
      if configSize ≠ (m.dof : Int) then (RL_ERROR_INVALID_PARAMETER, state)
      else
        let v := readConfig config m.dof
        let st1 := { state with start := some v }
        match m.isValid v with
        | .error _ => (RL_ERROR_EXCEPTION, st1)
        | .ok false => (RL_ERROR_INVALID_PARAMETER, st1)
        | .ok true =>
          match st1.planner with
          | some p =>
            (RL_SUCCESS, { st1 with planner := some { p with startPtr := some v } })
          | none => (RL_SUCCESS, st1)

/-- SetGoalConfiguration: symmetric to SetStartConfiguration. -/
def setGoalConfiguration (state : PlannerState α) (config : Option (Config α))
    (configSize : Int) : Int × PlannerState α :=
  if config.isNone then (RL_ERROR_INVALID_POINTER, state)
  else if configSize ≤ 0 then (RL_ERROR_INVALID_PARAMETER, state)
  else if ¬state.initialized then (RL_ERROR_NOT_INITIALIZED, state)
  else
    match state.model with
    | none => (RL_ERROR_NOT_INITIALIZED, state)
    | some m =>
      if configSize ≠ (m.dof : Int) then (RL_ERROR_INVALID_PARAMETER, state)
      else
        let v := readConfig config m.dof
        let st1 := { state with goal := some v }
        match m.isValid v with
        | .error _ => (RL_ERROR_EXCEPTION, st1)
        | .ok false => (RL_ERROR_INVALID_PARAMETER, st1)
        | .ok true =>
          match st1.planner with
          | some p =>
            (RL_SUCCESS, { st1 with planner := some { p with goalPtr := some v } })
          | none => (RL_SUCCESS, st1)

/-- GetDof: planning-model dof when initialized, else NOT_INITIALIZED. -/
def getDof (state : PlannerState α) : Int :=
  if ¬state.initialized then RL_ERROR_NOT_INITIALIZED
  else
    match state.model with
    | none => RL_ERROR_NOT_INITIALIZED
    | some m => (m.dof : Int)

/-- Arguments of a PlanTrajectory call.  The two output pointers are carried
as nullness flags; the waypoint buffer itself is modelled as a function from
cell index to value, passed separately. -/
structure PlanArgs (α : Type) where
  start : Option (Config α)
  startSize : Int
  goal : Option (Config α)
  goalSize : Int
  useZAxis : Int
  plannerType : Option String
  delta : α
  epsilon : α
  timeoutMs : Int
  maxWaypoints : Int
  waypointsNull : Bool
  waypointCountNull : Bool

/-- Oracle for one PlanTrajectory call: the outcomes of the pre-solve
verify, of solve, and of getPath followed by the optimizer pass. -/
structure PlanEnv (α : Type) where
  verify : Except Exc Bool
  solve : Except Exc Bool
  optimizedPath : Except Exc (List (Config α))

/-- Observable outcome of a PlanTrajectory call: return code, new session
state, the value written to *waypointCount (none when not written), the
waypoint buffer after the call, and the start and goal vectors bound to the
planner for this call (none when the call failed before binding). -/
structure PlanOut (α : Type) where
  ret : Int
  state : PlannerState α
  waypointCount : Option Int
  buf : Nat → α
  startUsed : Option (Config α)
  goalUsed : Option (Config α)

/-- Start resolution in PlanTrajectory: a non-null start parameter with
positive size must match dof and is copied; otherwise the stored start is
used; otherwise INVALID_PARAMETER. -/
def resolveStart (state : PlannerState α) (m : SimpleModel α)
    (args : PlanArgs α) : Except Int (Config α) :=
  if args.start.isSome ∧ 0 < args.startSize then
    if args.startSize ≠ (m.dof : Int) then .error RL_ERROR_INVALID_PARAMETER
    else .ok (readConfig args.start m.dof)
  else
    match state.start with
    | some s => .ok s
    | none => .error RL_ERROR_INVALID_PARAMETER

/-- Goal resolution in PlanTrajectory: like start resolution, except that a
goal copied from the parameter additionally gets the Z-axis constraint when
useZAxis is zero and dof is at least 3. -/
def resolveGoal (state : PlannerState α) (m : SimpleModel α)
    (args : PlanArgs α) (startVec : Config α) : Except Int (Config α) :=
  if args.goal.isSome ∧ 0 < args.goalSize then
    if args.goalSize ≠ (m.dof : Int) then .error RL_ERROR_INVALID_PARAMETER
    else
      let t := readConfig args.goal m.dof
      let t' :=
        if args.useZAxis = 0 ∧ 3 ≤ m.dof then
          constrainZAxis t startVec ((m.dof : Int) - 1)
        else t
      .ok t'
  else
    match state.goal with
    | some g => .ok g
    | none => .error RL_ERROR_INVALID_PARAMETER

/-- The effective planner kind of a PlanTrajectory call: a non-empty kind
argument, else the stored kind, else rrtConCon. -/
def effectivePlannerKind (state : PlannerState α) (args : PlanArgs α) :
    String :=
  match args.plannerType with
  | some s =>
    if 0 < s.length then s
    else if state.plannerType ≠ "" then state.plannerType else "rrtConCon"
  | none =>
    if state.plannerType ≠ "" then state.plannerType else "rrtConCon"

/-- Planner acquisition in PlanTrajectory: reuse the persistent planner when
present; otherwise lazily create any missing of sampler, verifier and
nearest neighbours, build a planner of the effective kind with the effective
parameters, and retain everything on the session. -/
def acquirePlanner (state : PlannerState α) (args : PlanArgs α) :
    Except Int (PlannerComp α) × PlannerState α :=
  match state.planner with
  | some p => (.ok p, state)
  | none =>
    let st1 := if state.sampler then state else { state with sampler := true }
    let st2 :=
      match st1.verifier with
      | some _ => st1
      | none =>
        { st1 with
          verifier := some (if 0 < args.delta then args.delta else state.delta) }
    let st3 :=
      if st2.nearestNeighbors then st2 else { st2 with nearestNeighbors := true }
    let kindStr := effectivePlannerKind state args
    let useDelta := if 0 < args.delta then args.delta else state.delta
    let useEpsilon := if 0 < args.epsilon then args.epsilon else state.epsilon
    let useTimeout := if 0 < args.timeoutMs then args.timeoutMs else state.timeoutMs
    match createPlanner kindStr useDelta useEpsilon with
    | none => (.error RL_ERROR_INVALID_PARAMETER, st3)
    | some p0 =>
      let p1 := { p0 with duration := useTimeout }
      (.ok p1,
        { st3 with planner := some p1, plannerType := kindStr
                   delta := useDelta, epsilon := useEpsilon
                   timeoutMs := useTimeout })

/-- One cell store into the flat waypoint buffer. -/
def writeCell (buf : Nat → α) (i : Nat) (v : α) : Nat → α :=
  fun k => if k = i then v else buf k

/-- The inner loop of the output copy: write row idx of the path, cell
idx * dof + j for each j below dof. -/
def writeRow (buf : Nat → α) (idx dof : Nat) (w : Config α) : Nat → α :=
  (List.range dof).foldl (fun b j => writeCell b (idx * dof + j) (w.getD j 0)) buf

/-- The outer loop of the output copy: iterate the path while idx < count. -/
def writeRowsFrom (buf : Nat → α) (dof : Nat) (path : List (Config α))
    (idx count : Nat) : Nat → α :=
  match path with
  | [] => buf
  | w :: rest =>
    if idx < count then
      writeRowsFrom (writeRow buf idx dof w) dof rest (idx + 1) count
    else buf

/-- The full output copy of PlanTrajectory. -/
def writeWaypoints (buf : Nat → α) (dof : Nat) (path : List (Config α))
    (count : Nat) : Nat → α :=
  writeRowsFrom buf dof path 0 count

/-- Binding step of PlanTrajectory: point the planner at the resolved start
and goal and, when the timeout argument is positive, override its
duration. -/
def bindPlanner (p : PlannerComp α) (sv gv : Config α) (args : PlanArgs α) :
    PlannerComp α :=
  let p2 := { p with startPtr := some sv, goalPtr := some gv }
  if 0 < args.timeoutMs then { p2 with duration := args.timeoutMs } else p2

/-- Tail of PlanTrajectory once a planner is at hand: bind start, goal and
the timeout override, run verify, solve, getPath plus optimizer, truncate to
maxWaypoints, set the waypoint count and copy the rows out.  A std exception
maps to PLANNING_FAILED, an unknown one to EXCEPTION. -/
def finishPlan (st : PlannerState α) (p : PlannerComp α)
    (sv gv : Config α) (dof : Nat) (args : PlanArgs α) (env : PlanEnv α)
    (buf : Nat → α) : PlanOut α :=
  let st' := { st with planner := some (bindPlanner p sv gv args) }
  match env.verify with
  | .error .std => ⟨RL_ERROR_PLANNING_FAILED, st', none, buf, some sv, some gv⟩
  | .error .unknown => ⟨RL_ERROR_EXCEPTION, st', none, buf, some sv, some gv⟩
  | .ok false => ⟨RL_ERROR_PLANNING_FAILED, st', none, buf, some sv, some gv⟩
  | .ok true =>
    match env.solve with
    | .error .std => ⟨RL_ERROR_PLANNING_FAILED, st', none, buf, some sv, some gv⟩
    | .error .unknown => ⟨RL_ERROR_EXCEPTION, st', none, buf, some sv, some gv⟩
    | .ok false => ⟨RL_ERROR_PLANNING_FAILED, st', some 0, buf, some sv, some gv⟩
    | .ok true =>
      match env.optimizedPath with
      | .error .std =>
        ⟨RL_ERROR_PLANNING_FAILED, st', none, buf, some sv, some gv⟩
      | .error .unknown => ⟨RL_ERROR_EXCEPTION, st', none, buf, some sv, some gv⟩
      | .ok path =>
        let count : Int :=
          if args.maxWaypoints < (path.length : Int) then args.maxWaypoints
          else (path.length : Int)
        ⟨RL_SUCCESS, st', some count, writeWaypoints buf dof path count.toNat,
          some sv, some gv⟩

/-- PlanTrajectory: output-pointer checks, lifecycle check, start and goal
resolution, planner acquisition, then the solve pipeline. -/
def planTrajectory (state : PlannerState α) (args : PlanArgs α)
    (env : PlanEnv α) (buf : Nat → α) : PlanOut α :=
  if args.waypointsNull ∨ args.waypointCountNull then
    ⟨RL_ERROR_INVALID_POINTER, state, none, buf, none, none⟩
  else if ¬state.initialized then
    ⟨RL_ERROR_NOT_INITIALIZED, state, none, buf, none, none⟩
  else
    match state.model with
    | none => ⟨RL_ERROR_NOT_INITIALIZED, state, none, buf, none, none⟩
    | some m =>
      match resolveStart state m args with
      | .error e => ⟨e, state, none, buf, none, none⟩
      | .ok sv =>
        match resolveGoal state m args sv with
        | .error e => ⟨e, state, none, buf, none, none⟩
        | .ok gv =>
          match acquirePlanner state args with
          | (.error e, stE) => ⟨e, stE, none, buf, none, none⟩
          | (.ok p, st) => finishPlan st p sv gv m.dof args env buf

/-- IsValidConfiguration: pointer, lifecycle, wiring and size checks, the
joint-limit predicate, then the zero-length-path collision probe through the
verifier (created on demand with the stored delta, default 0.1).  The env
argument is the verifier verdict on the path [q, q]; a throw there falls
back to the joint-limit result. -/
def isValidConfiguration (state : PlannerState α) (config : Option (Config α))
    (configSize : Int) (env : Except Exc Bool) : Int × PlannerState α :=
  if config.isNone then (0, state)
  else if ¬state.initialized then (0, state)
  else
    match state.model with
    | none => (0, state)
    | some m =>
      if state.kinematics.isNone then (0, state)
      else if m.kin.isNone ∧ m.mdl.isNone then (0, state)
      else if m.robotModel.isNone ∨ m.scenePtr.isNone then (0, state)
      else if configSize ≠ (m.dof : Int) then (0, state)
      else
        let q := readConfig config m.dof
        match m.isValid q with
        | .error _ => (0, state)
        | .ok false => (0, state)
        | .ok true =>
          let st1 :=
            match state.verifier with
            | some _ => state
            | none =>
              { state with
                verifier := some (if 0 < state.delta then state.delta else 1 / 10) }
          match env with
          | .ok true => (1, st1)
          | .ok false => (0, st1)
          | .error _ => (1, st1)

/-- The plan descriptor as seen through the XPath queries of LoadPlanXml:
each numeric element carries its text value and its unit attribute (the
empty string when the attribute is absent). -/
structure PlanDescriptor (α : Type) where
  sceneHref : Option String
  kinematicsHref : Option String
  modelIndex : Nat
  rootName : String
  plannerChild : Option String
  delta : Option (α × String)
  epsilon : Option (α × String)
  duration : Option α
  startQ : Option (List (α × String))
  goalQ : Option (List (α × String))

/-- The value a static_cast from double to int produces: truncation toward
zero. -/
def cppDoubleToInt [FloorRing α] (x : α) : Int :=
  if 0 ≤ x then ⌊x⌋ else ⌈x⌉

/-- The delta LoadPlanXml extracts: default 1.0; a deg unit multiplies by
the degree-to-radian factor. -/
def descDelta (deg2rad : α) (d : PlanDescriptor α) : α :=
  match d.delta with
  | none => 1
  | some (x, u) => if u = "deg" then x * deg2rad else x

/-- The epsilon LoadPlanXml extracts: default 0.001; a deg unit multiplies
by the degree-to-radian factor. -/
def descEpsilon (deg2rad : α) (d : PlanDescriptor α) : α :=
  match d.epsilon with
  | none => 1 / 1000
  | some (x, u) => if u = "deg" then x * deg2rad else x

/-- The timeout LoadPlanXml extracts: default 120000 ms; a duration element
holds seconds, multiplied by 1000 and cast to int. -/
def descTimeoutMs [FloorRing α] (d : PlanDescriptor α) : Int :=
  match d.duration with
  | none => 120000
  | some v => cppDoubleToInt (v * 1000)

/-- Per-component conversion of a q element: a deg unit multiplies the text
value by the degree-to-radian factor. -/
def convQ (deg2rad : α) (q : α × String) : α :=
  if q.2 = "deg" then q.1 * deg2rad else q.1

/-- The planner kind LoadPlanXml extracts: the root element name, unless the
root is rlplan or plan, in which case the first recognized planner child,
defaulting to rrtConCon. -/
def descPlannerKind (d : PlanDescriptor α) : String :=
  if d.rootName = "rlplan" ∨ d.rootName = "plan" then
    match d.plannerChild with
    | some s => s
    | none => "rrtConCon"
  else d.rootName

/-- Oracle for LoadPlanXml: the outcome of parsing (and, when applicable,
XSLT-transforming) the descriptor, plus the oracles of the nested
LoadKinematics and LoadScene calls. -/
structure PlanXmlEnv (α : Type) where
  parseResult : Except Exc (PlanDescriptor α)
  kinEnv : KinEnv
  sceneEnv : SceneEnv α

/-- LoadPlanXml: parse the descriptor, extract and store the parameters,
run LoadKinematics and LoadScene (propagating their codes), materialize
start and goal when given, eagerly build sampler, verifier, nearest
neighbours, optimizer and planner, and bind the planner. -/
def loadPlanXml [FloorRing α] (state : PlannerState α) (xmlPath : Option String)
    (deg2rad : α) (env : PlanXmlEnv α) : Int × PlannerState α :=
  if xmlPath.isNone then (RL_ERROR_INVALID_POINTER, state)
  else
    match env.parseResult with
    | .error .std => (RL_ERROR_LOAD_FAILED, state)
    | .error .unknown => (RL_ERROR_EXCEPTION, state)
    | .ok d =>
      if d.sceneHref.isNone then (RL_ERROR_LOAD_FAILED, state)
      else if d.kinematicsHref.isNone then (RL_ERROR_LOAD_FAILED, state)
      else
        let kindStr := descPlannerKind d
        let delta := descDelta deg2rad d
        let epsilon := descEpsilon deg2rad d
        let timeoutMs := descTimeoutMs d
        let st1 := { state with plannerType := kindStr, delta := delta
                                epsilon := epsilon, timeoutMs := timeoutMs }
        let r1 := loadKinematics st1 d.kinematicsHref env.kinEnv
        if r1.1 ≠ RL_SUCCESS then r1
        else
          let r2 := loadScene r1.2 d.sceneHref (d.modelIndex : Int) env.sceneEnv
          if r2.1 ≠ RL_SUCCESS then r2
          else
            let st4 :=
              match d.startQ with
              | some qs => { r2.2 with start := some (qs.map (convQ deg2rad)) }
              | none => r2.2
            let st5 :=
              match d.goalQ with
              | some qs => { st4 with goal := some (qs.map (convQ deg2rad)) }
              | none => st4
            let st6 := { st5 with sampler := true, verifier := some delta
                                  nearestNeighbors := true, optimizer := true }
            match createPlanner kindStr delta epsilon with
            | none => (RL_ERROR_LOAD_FAILED, st6)
            | some p0 =>
              let p1 := { p0 with duration := timeoutMs
                                  startPtr := st6.start, goalPtr := st6.goal }
              (RL_SUCCESS, { st6 with planner := some p1 })

/-- Session invariant from the spec (section 3): whenever initialized is
true, the stored start and goal vectors, when present, have size dof and
are accepted by the validity predicate of the planning model. -/
def configsValidInv (s : PlannerState α) : Prop :=
  s.initialized = true →
    ∃ m, s.model = some m ∧
      (∀ v, s.start = some v → v.length = m.dof ∧ m.isValid v = .ok true) ∧
      (∀ v, s.goal = some v → v.length = m.dof ∧ m.isValid v = .ok true)

/-- Session invariant from the spec (section 3): whenever initialized is
true, the planning model references exactly one of the current kinematics
as a plain kinematic view or as a dynamic view, never both, never
neither. -/
def wiredToCurrentKin (s : PlannerState α) : Prop :=
  s.initialized = true →
    ∃ m kid isDyn, s.model = some m ∧ s.kinematics = some (kid, isDyn) ∧
      ((isDyn = true ∧ m.mdl = some kid ∧ m.kin = none) ∨
       (isDyn = false ∧ m.kin = some kid ∧ m.mdl = none))

end Ops

/-! Concrete fixtures over the rationals, used to instantiate the theorems
below at explicit inputs. -/

/-- A wired planning model with three degrees of freedom whose validity
predicate accepts everything. -/
def mModel : SimpleModel ℚ :=
  { kin := some 1, mdl := none, robotModel := some 7, scenePtr := some 5
    dof := 3, isValid := fun _ => .ok true }

/-- A persistent RRT planner with delta two and epsilon three. -/
def basePlanner : PlannerComp ℚ :=
  { kind := "rrt", params := .rrt 2 3, duration := 30000
    startPtr := none, goalPtr := none }

/-- An initialized session holding a persistent planner and stored start
and goal configurations. -/
def baseState : PlannerState ℚ :=
  { scene := some 5, kinematics := some (1, false), mdl := none
    model := some mModel, robotModel := some 7, initialized := true
    planner := some basePlanner, sampler := true, verifier := some 2
    nearestNeighbors := true, optimizer := true
    start := some [0, 0, 0], goal := some [1, 1, 1]
    plannerType := "rrt", delta := 2, epsilon := 3
    timeoutMs := 30000 }

/-- The initialized session without a persistent planner. -/
def lazyState : PlannerState ℚ :=
  { baseState with planner := none, sampler := false, verifier := none
                   nearestNeighbors := false, plannerType := "" }

/-- A two-dof planning model whose validity predicate only accepts vectors
whose first component is at most one. -/
def limitModel : SimpleModel ℚ :=
  { kin := some 1, mdl := none, robotModel := some 7, scenePtr := some 5
    dof := 2, isValid := fun v => .ok (decide (v.getD 0 0 ≤ 1)) }

/-- An initialized two-dof session with joint limits and nothing stored. -/
def limitState : PlannerState ℚ :=
  { scene := some 5, kinematics := some (1, false), mdl := none
    model := some limitModel, robotModel := some 7, initialized := true
    planner := none, sampler := false, verifier := none
    nearestNeighbors := false, optimizer := false, start := none, goal := none
    plannerType := "", delta := 2, epsilon := 3, timeoutMs := 30000 }

/-- PlanTrajectory arguments that pass neither start nor goal and override
nothing. -/
def defaultArgs : PlanArgs ℚ :=
  { start := none, startSize := 0, goal := none, goalSize := 0
    useZAxis := 1, plannerType := none, delta := 0, epsilon := 0
    timeoutMs := 0, maxWaypoints := 100
    waypointsNull := false, waypointCountNull := false }

/-- An engine run in which everything succeeds with a two-waypoint path. -/
def okEnv : PlanEnv ℚ :=
  { verify := .ok true, solve := .ok true
    optimizedPath := .ok [[0, 0, 0], [1, 1, 1]] }

/-- An engine run in which the pre-solve verification fails. -/
def failVerifyEnv : PlanEnv ℚ :=
  { verify := .ok false, solve := .ok true, optimizedPath := .ok [] }

/-- The all-zero waypoint buffer. -/
def zeroBuf : Nat → ℚ := fun _ => 0

/-- A kinematics load in which the file is not a Dynamic model and plain
Kinematics parsing yields object 1. -/
def kinEnvA : KinEnv :=
  { factoryCreate := .error .std, kinCast := true, kinCreate := .ok 1 }

/-- A second kinematics load yielding plain Kinematics object 2. -/
def kinEnvB : KinEnv :=
  { factoryCreate := .error .std, kinCast := true, kinCreate := .ok 2 }

/-- A scene load that succeeds with one model and a two-dof planning
model. -/
def sceneEnvA : SceneEnv ℚ :=
  { createSceneOk := true, sceneId := 10, loadResult := .ok ()
    numModels := 1, getModel := fun _ => 20, isDistanceScene := false
    isSimpleScene := true, modelDof := 2, modelIsValid := fun _ => .ok true }

/-- Fresh session. -/
def sessA : PlannerState ℚ := PlannerState.create

/-- Session after LoadKinematics. -/
def sessB : PlannerState ℚ := (loadKinematics sessA (some "kin.xml") kinEnvA).2

/-- Session after LoadScene: initialized and wired to kinematics 1. -/
def sessC : PlannerState ℚ := (loadScene sessB (some "scene.xml") 0 sceneEnvA).2

/-- Session after a second LoadKinematics: stores kinematics 2 while the
planning model still references kinematics 1. -/
def sessD : PlannerState ℚ := (loadKinematics sessC (some "kin2.xml") kinEnvB).2

/-- PlanTrajectory arguments passing a goal parameter, with useZAxis of
zero. -/
def zGoalArgs : PlanArgs ℚ :=
  { defaultArgs with useZAxis := 0, goal := some [1, 1, 9], goalSize := 3 }

/-- PlanTrajectory arguments naming the unknown planner kind sbl. -/
def sblArgs : PlanArgs ℚ :=
  { defaultArgs with plannerType := some "sbl" }

/-- PlanTrajectory arguments overriding delta, epsilon and the timeout. -/
def overrideArgs : PlanArgs ℚ :=
  { defaultArgs with delta := 5, epsilon := 7, timeoutMs := 9 }

/-- PlanTrajectory arguments with a negative maxWaypoints. -/
def negMaxArgs : PlanArgs ℚ :=
  { defaultArgs with maxWaypoints := -3 }

/-- A descriptor whose delta element is 2 with a deg unit and whose other
elements are absent. -/
def degDesc : PlanDescriptor ℝ :=
  { sceneHref := some "scene.xml", kinematicsHref := some "kin.xml"
    modelIndex := 0, rootName := "rlplan", plannerChild := none
    delta := some (2, "deg"), epsilon := none, duration := none
    startQ := none, goalQ := none }

/-- A descriptor with no optional elements at all. -/
def emptyDesc : PlanDescriptor ℝ :=
  { sceneHref := some "scene.xml", kinematicsHref := some "kin.xml"
    modelIndex := 0, rootName := "rlplan", plannerChild := none
    delta := none, epsilon := none, duration := none
    startQ := none, goalQ := none }

/-! Helper lemmas about the waypoint-buffer copy loop. -/

section BufferLemmas

variable {α : Type}

theorem foldl_writeCell_miss (g : Nat → α) (base k : Nat) (l : List Nat)
    (buf : Nat → α) (h : ∀ j ∈ l, k ≠ base + j) :
    (l.foldl (fun b j => writeCell b (base + j) (g j)) buf) k = buf k := by
  induction l generalizing buf with
  | nil => rfl
  | cons a t ih =>
    simp only [List.foldl_cons]
    rw [ih _ fun j hj => h j (List.mem_cons_of_mem a hj)]
    unfold writeCell
    rw [if_neg (h a (List.mem_cons_self a t))]

theorem foldl_writeCell_hit (g : Nat → α) (base j : Nat) (l : List Nat)
    (buf : Nat → α) (hj : j ∈ l) :
    (l.foldl (fun b j => writeCell b (base + j) (g j)) buf) (base + j) = g j := by
  induction l generalizing buf with
  | nil => cases hj
  | cons a t ih =>
    simp only [List.foldl_cons]
    by_cases hmem : j ∈ t
    · exact ih _ hmem
    · have haj : a = j := by
        rcases List.mem_cons.mp hj with h | h
        · exact h.symm
        · exact absurd h hmem
      subst haj
      rw [foldl_writeCell_miss g base _ t _ ?_]
      · unfold writeCell
        rw [if_pos rfl]
      · intro j' hj' hk
        have : j' = a := by omega
        exact hmem (this ▸ hj')

theorem writeRow_hit [LinearOrderedField α] (buf : Nat → α) (idx dof j : Nat) (w : Config α)
    (hj : j < dof) :
    writeRow buf idx dof w (idx * dof + j) = w.getD j 0 :=
  foldl_writeCell_hit (fun j => w.getD j 0) (idx * dof) j (List.range dof) buf
    (List.mem_range.mpr hj)

theorem writeRow_miss [LinearOrderedField α] (buf : Nat → α) (idx dof k : Nat) (w : Config α)
    (h : k < idx * dof ∨ idx * dof + dof ≤ k) :
    writeRow buf idx dof w k = buf k := by
  apply foldl_writeCell_miss
  intro j hj
  have := List.mem_range.mp hj
  omega

theorem writeRowsFrom_miss_low [LinearOrderedField α] (dof : Nat) (path : List (Config α))
    (count k : Nat) :
    ∀ (idx : Nat) (buf : Nat → α), k < idx * dof →
      writeRowsFrom buf dof path idx count k = buf k := by
  induction path with
  | nil => intro idx buf _; rfl
  | cons w rest ih =>
    intro idx buf h
    simp only [writeRowsFrom]
    split
    · rw [ih (idx + 1) _ (by rw [Nat.succ_mul]; omega)]
      exact writeRow_miss _ _ _ _ _ (Or.inl h)
    · rfl

theorem writeRowsFrom_miss_high [LinearOrderedField α] (dof : Nat) (path : List (Config α))
    (count k : Nat) (h : count * dof ≤ k) :
    ∀ (idx : Nat) (buf : Nat → α),
      writeRowsFrom buf dof path idx count k = buf k := by
  induction path with
  | nil => intro idx buf; rfl
  | cons w rest ih =>
    intro idx buf
    simp only [writeRowsFrom]
    split
    · rename_i hidx
      rw [ih (idx + 1) _]
      apply writeRow_miss
      right
      have h1 : (idx + 1) * dof ≤ count * dof := Nat.mul_le_mul_right dof hidx
      rw [Nat.succ_mul] at h1
      omega
    · rfl

theorem writeRowsFrom_hit [LinearOrderedField α] (dof : Nat) (path : List (Config α)) (count : Nat) :
    ∀ (idx i j : Nat) (buf : Nat → α), i < path.length → idx + i < count →
      j < dof →
      writeRowsFrom buf dof path idx count ((idx + i) * dof + j) =
        (path.getD i []).getD j 0 := by
  induction path with
  | nil =>
    intro idx i j buf hi
    simp at hi
  | cons w rest ih =>
    intro idx i j buf hi hic hj
    simp only [writeRowsFrom]
    have hidx : idx < count := by omega
    rw [if_pos hidx]
    cases i with
    | zero =>
      rw [writeRowsFrom_miss_low dof rest count _ (idx + 1) _
        (by simp only [Nat.add_zero, Nat.succ_mul]; omega)]
      simpa using writeRow_hit buf idx dof j w hj
    | succ i' =>
      have harr : idx + (i' + 1) = (idx + 1) + i' := by omega
      rw [harr]
      have := ih (idx + 1) i' j (writeRow buf idx dof w)
        (by simpa using hi) (by omega) hj
      simpa [List.getD] using this

theorem writeWaypoints_hit [LinearOrderedField α] (buf : Nat → α) (dof : Nat) (path : List (Config α))
    (count i j : Nat) (hi : i < path.length) (hic : i < count) (hj : j < dof) :
    writeWaypoints buf dof path count (i * dof + j) = (path.getD i []).getD j 0 := by
  have := writeRowsFrom_hit dof path count 0 i j buf hi (by omega) hj
  simpa [writeWaypoints] using this

theorem writeWaypoints_untouched [LinearOrderedField α] (buf : Nat → α) (dof : Nat)
    (path : List (Config α)) (count k : Nat) (h : count * dof ≤ k) :
    writeWaypoints buf dof path count k = buf k :=
  writeRowsFrom_miss_high dof path count k h 0 buf

theorem writeWaypoints_zero [LinearOrderedField α] (buf : Nat → α) (dof : Nat)
    (path : List (Config α)) :
    writeWaypoints buf dof path 0 = buf := by
  cases path <;> rfl

theorem readConfig_length [LinearOrderedField α] (config : Option (Config α)) (dof : Nat) :
    (readConfig config dof).length = dof := by
  simp [readConfig]

theorem getD_set_self [LinearOrderedField α] (l : List α) (i : Nat) (a : α) (h : i < l.length) :
    (l.set i a).getD i 0 = a := by
  simp [List.getD_eq_getElem?_getD, List.getElem?_set_self, h]

end BufferLemmas

/-! Helper lemmas about the session operations. -/

section StructLemmas

variable {α : Type} [LinearOrderedField α]

theorem createPlanner_none {s : String} (h : knownPlannerKind s = false)
    (d e : α) : createPlanner s d e = none := by
  unfold createPlanner
  simp only [knownPlannerKind, decide_eq_false_iff_not] at h
  push_neg at h
  split_ifs with h1 h2 h3 h4 <;> first | rfl | tauto

theorem bindPlanner_eq (p : PlannerComp α) (sv gv : Config α)
    (args : PlanArgs α) :
    bindPlanner p sv gv args =
      { p with startPtr := some sv, goalPtr := some gv,
               duration :=
                 if 0 < args.timeoutMs then args.timeoutMs else p.duration } := by
  unfold bindPlanner
  by_cases ht : 0 < args.timeoutMs
  · simp only [if_pos ht]
  · simp only [if_neg ht]

theorem finishPlan_state (st : PlannerState α) (p : PlannerComp α)
    (sv gv : Config α) (dof : Nat) (args : PlanArgs α) (env : PlanEnv α)
    (buf : Nat → α) :
    (finishPlan st p sv gv dof args env buf).state =
      { st with planner := some (bindPlanner p sv gv args) } := by
  unfold finishPlan
  rcases env.verify with (_ | _) | (_ | _) <;>
    rcases env.solve with (_ | _) | (_ | _) <;>
    rcases env.optimizedPath with (_ | _) | _ <;>
    rfl

theorem finishPlan_used (st : PlannerState α) (p : PlannerComp α)
    (sv gv : Config α) (dof : Nat) (args : PlanArgs α) (env : PlanEnv α)
    (buf : Nat → α) :
    (finishPlan st p sv gv dof args env buf).startUsed = some sv ∧
    (finishPlan st p sv gv dof args env buf).goalUsed = some gv := by
  unfold finishPlan
  rcases env.verify with (_ | _) | (_ | _) <;>
    rcases env.solve with (_ | _) | (_ | _) <;>
    rcases env.optimizedPath with (_ | _) | _ <;>
    exact ⟨rfl, rfl⟩

theorem acquirePlanner_core (state : PlannerState α) (args : PlanArgs α) :
    (acquirePlanner state args).2.model = state.model ∧
    (acquirePlanner state args).2.kinematics = state.kinematics ∧
    (acquirePlanner state args).2.initialized = state.initialized ∧
    (acquirePlanner state args).2.start = state.start ∧
    (acquirePlanner state args).2.goal = state.goal := by
  unfold acquirePlanner
  rcases hp : state.planner with _ | p
  · by_cases hs : state.sampler <;>
      simp only [hs, if_true, if_false, ite_true, ite_false] <;>
      rcases hv : state.verifier with _ | d <;>
      by_cases hn : state.nearestNeighbors <;>
      simp only [hv, hn, if_true, if_false, ite_true, ite_false] <;>
      rcases createPlanner (effectivePlannerKind state args)
        (if 0 < args.delta then args.delta else state.delta)
        (if 0 < args.epsilon then args.epsilon else state.epsilon) with _ | p0 <;>
      exact ⟨rfl, rfl, rfl, rfl, rfl⟩
  · exact ⟨rfl, rfl, rfl, rfl, rfl⟩

theorem planTrajectory_core (state : PlannerState α) (args : PlanArgs α)
    (env : PlanEnv α) (buf : Nat → α) :
    (planTrajectory state args env buf).state.model = state.model ∧
    (planTrajectory state args env buf).state.kinematics = state.kinematics ∧
    (planTrajectory state args env buf).state.initialized = state.initialized := by
  unfold planTrajectory
  repeat' split
  all_goals
    first
    | (refine ⟨?_, ?_, ?_⟩ <;> rfl)
    | (rename_i heq
       have h := acquirePlanner_core state args
       rw [show (acquirePlanner state args).2 = _ from congrArg Prod.snd heq] at h
       first
       | (rw [finishPlan_state]
          exact ⟨h.1, h.2.1, h.2.2.1⟩)
       | exact ⟨h.1, h.2.1, h.2.2.1⟩)

theorem setStart_core (state : PlannerState α) (c : Option (Config α))
    (n : Int) :
    (setStartConfiguration state c n).2.model = state.model ∧
    (setStartConfiguration state c n).2.kinematics = state.kinematics ∧
    (setStartConfiguration state c n).2.initialized = state.initialized := by
  unfold setStartConfiguration
  dsimp only
  repeat' split
  all_goals exact ⟨rfl, rfl, rfl⟩

theorem setGoal_core (state : PlannerState α) (c : Option (Config α))
    (n : Int) :
    (setGoalConfiguration state c n).2.model = state.model ∧
    (setGoalConfiguration state c n).2.kinematics = state.kinematics ∧
    (setGoalConfiguration state c n).2.initialized = state.initialized := by
  unfold setGoalConfiguration
  dsimp only
  repeat' split
  all_goals exact ⟨rfl, rfl, rfl⟩

theorem isValidConfiguration_core (state : PlannerState α)
    (c : Option (Config α)) (n : Int) (env : Except Exc Bool) :
    (isValidConfiguration state c n env).2.model = state.model ∧
    (isValidConfiguration state c n env).2.kinematics = state.kinematics ∧
    (isValidConfiguration state c n env).2.initialized = state.initialized := by
  unfold isValidConfiguration
  dsimp only
  repeat' split
  all_goals exact ⟨rfl, rfl, rfl⟩

theorem loadKinematics_fields (s : PlannerState α) (p : Option String)
    (e : KinEnv) :
    (loadKinematics s p e).2.delta = s.delta ∧
    (loadKinematics s p e).2.epsilon = s.epsilon ∧
    (loadKinematics s p e).2.timeoutMs = s.timeoutMs ∧
    (loadKinematics s p e).2.start = s.start ∧
    (loadKinematics s p e).2.goal = s.goal ∧
    (loadKinematics s p e).2.plannerType = s.plannerType ∧
    (loadKinematics s p e).2.model = s.model ∧
    (loadKinematics s p e).2.initialized = s.initialized := by
  unfold loadKinematics loadKinFallback
  repeat' split
  all_goals exact ⟨rfl, rfl, rfl, rfl, rfl, rfl, rfl, rfl⟩

theorem loadScene_fields (s : PlannerState α) (p : Option String) (i : Int)
    (e : SceneEnv α) :
    (loadScene s p i e).2.delta = s.delta ∧
    (loadScene s p i e).2.epsilon = s.epsilon ∧
    (loadScene s p i e).2.timeoutMs = s.timeoutMs ∧
    (loadScene s p i e).2.start = s.start ∧
    (loadScene s p i e).2.goal = s.goal ∧
    (loadScene s p i e).2.plannerType = s.plannerType ∧
    (loadScene s p i e).2.kinematics = s.kinematics := by
  unfold loadScene
  dsimp only
  repeat' split
  all_goals exact ⟨rfl, rfl, rfl, rfl, rfl, rfl, rfl⟩

theorem resolveStart_error_code (state : PlannerState α) (m : SimpleModel α)
    (args : PlanArgs α) (e : Int)
    (h : resolveStart state m args = .error e) :
    e = RL_ERROR_INVALID_PARAMETER := by
  unfold resolveStart at h
  repeat' split at h
  all_goals first
    | (injection h with h2; exact h2.symm)
    | simp at h

theorem resolveGoal_error_code (state : PlannerState α) (m : SimpleModel α)
    (args : PlanArgs α) (sv : Config α) (e : Int)
    (h : resolveGoal state m args sv = .error e) :
    e = RL_ERROR_INVALID_PARAMETER := by
  unfold resolveGoal at h
  repeat' split at h
  all_goals first
    | (injection h with h2; exact h2.symm)
    | simp at h

theorem acquirePlanner_error_code (state : PlannerState α) (args : PlanArgs α)
    (e : Int) (stE : PlannerState α)
    (h : acquirePlanner state args = (.error e, stE)) :
    e = RL_ERROR_INVALID_PARAMETER := by
  unfold acquirePlanner at h
  dsimp only at h
  repeat' split at h
  all_goals
    injection h with h1 h2
  all_goals first
    | (injection h1 with h1; exact h1.symm)
    | simp at h1

theorem planTrajectory_success_shape (state : PlannerState α)
    (args : PlanArgs α) (env : PlanEnv α) (buf : Nat → α)
    (h : (planTrajectory state args env buf).ret = RL_SUCCESS) :
    ∃ m sv gv p st path,
      state.model = some m ∧
      resolveStart state m args = .ok sv ∧
      resolveGoal state m args sv = .ok gv ∧
      acquirePlanner state args = (.ok p, st) ∧
      env.verify = .ok true ∧ env.solve = .ok true ∧
      env.optimizedPath = .ok path ∧
      planTrajectory state args env buf =
        ⟨RL_SUCCESS, { st with planner := some (bindPlanner p sv gv args) },
         some (if args.maxWaypoints < (path.length : Int) then args.maxWaypoints
               else (path.length : Int)),
         writeWaypoints buf m.dof path
           (if args.maxWaypoints < (path.length : Int) then args.maxWaypoints
            else (path.length : Int)).toNat,
         some sv, some gv⟩ := by
  unfold planTrajectory at h
  split at h
  · simp [RL_SUCCESS, RL_ERROR_INVALID_POINTER, RL_ERROR_NOT_INITIALIZED,
      RL_ERROR_INVALID_PARAMETER, RL_ERROR_PLANNING_FAILED, RL_ERROR_EXCEPTION] at h
  rename_i hnull
  split at h
  · simp [RL_SUCCESS, RL_ERROR_INVALID_POINTER, RL_ERROR_NOT_INITIALIZED,
      RL_ERROR_INVALID_PARAMETER, RL_ERROR_PLANNING_FAILED, RL_ERROR_EXCEPTION] at h
  rename_i hinit
  split at h
  · simp [RL_SUCCESS, RL_ERROR_INVALID_POINTER, RL_ERROR_NOT_INITIALIZED,
      RL_ERROR_INVALID_PARAMETER, RL_ERROR_PLANNING_FAILED, RL_ERROR_EXCEPTION] at h
  rename_i m hm
  split at h
  · rename_i e heq
    rw [resolveStart_error_code state m args e heq] at h
    simp [RL_SUCCESS, RL_ERROR_INVALID_POINTER, RL_ERROR_NOT_INITIALIZED,
      RL_ERROR_INVALID_PARAMETER, RL_ERROR_PLANNING_FAILED, RL_ERROR_EXCEPTION] at h
  rename_i sv hsv
  split at h
  · rename_i e heq
    rw [resolveGoal_error_code state m args sv e heq] at h
    simp [RL_SUCCESS, RL_ERROR_INVALID_POINTER, RL_ERROR_NOT_INITIALIZED,
      RL_ERROR_INVALID_PARAMETER, RL_ERROR_PLANNING_FAILED, RL_ERROR_EXCEPTION] at h
  rename_i gv hgv
  split at h
  · rename_i e stE heq
    rw [acquirePlanner_error_code state args e stE heq] at h
    simp [RL_SUCCESS, RL_ERROR_INVALID_POINTER, RL_ERROR_NOT_INITIALIZED,
      RL_ERROR_INVALID_PARAMETER, RL_ERROR_PLANNING_FAILED, RL_ERROR_EXCEPTION] at h
  rename_i p st hacq
  unfold finishPlan at h
  split at h
  · simp [RL_SUCCESS, RL_ERROR_INVALID_POINTER, RL_ERROR_NOT_INITIALIZED,
      RL_ERROR_INVALID_PARAMETER, RL_ERROR_PLANNING_FAILED, RL_ERROR_EXCEPTION] at h
  · simp [RL_SUCCESS, RL_ERROR_INVALID_POINTER, RL_ERROR_NOT_INITIALIZED,
      RL_ERROR_INVALID_PARAMETER, RL_ERROR_PLANNING_FAILED, RL_ERROR_EXCEPTION] at h
  · simp [RL_SUCCESS, RL_ERROR_INVALID_POINTER, RL_ERROR_NOT_INITIALIZED,
      RL_ERROR_INVALID_PARAMETER, RL_ERROR_PLANNING_FAILED, RL_ERROR_EXCEPTION] at h
  rename_i hver
  split at h
  · simp [RL_SUCCESS, RL_ERROR_INVALID_POINTER, RL_ERROR_NOT_INITIALIZED,
      RL_ERROR_INVALID_PARAMETER, RL_ERROR_PLANNING_FAILED, RL_ERROR_EXCEPTION] at h
  · simp [RL_SUCCESS, RL_ERROR_INVALID_POINTER, RL_ERROR_NOT_INITIALIZED,
      RL_ERROR_INVALID_PARAMETER, RL_ERROR_PLANNING_FAILED, RL_ERROR_EXCEPTION] at h
  · simp [RL_SUCCESS, RL_ERROR_INVALID_POINTER, RL_ERROR_NOT_INITIALIZED,
      RL_ERROR_INVALID_PARAMETER, RL_ERROR_PLANNING_FAILED, RL_ERROR_EXCEPTION] at h
  rename_i hsol
  split at h
  · simp [RL_SUCCESS, RL_ERROR_INVALID_POINTER, RL_ERROR_NOT_INITIALIZED,
      RL_ERROR_INVALID_PARAMETER, RL_ERROR_PLANNING_FAILED, RL_ERROR_EXCEPTION] at h
  · simp [RL_SUCCESS, RL_ERROR_INVALID_POINTER, RL_ERROR_NOT_INITIALIZED,
      RL_ERROR_INVALID_PARAMETER, RL_ERROR_PLANNING_FAILED, RL_ERROR_EXCEPTION] at h
  rename_i path hpath
  refine ⟨m, sv, gv, p, st, path, hm, hsv, hgv, hacq, hver, hsol, hpath, ?_⟩
  unfold planTrajectory finishPlan
  rw [if_neg hnull, if_neg hinit]
  simp only [hm, hsv, hgv, hacq, hver, hsol, hpath]

end StructLemmas

/-! The claims. -/

section Claims

variable {α : Type} [LinearOrderedField α]

/-- C10: in every PlanTrajectory call with non-positive maxWaypoints whose
solve pipeline succeeds, the function still returns SUCCESS, writes the
non-positive maxWaypoints value itself (not zero-clamped) to *waypointCount,
and leaves the waypoint buffer untouched. -/
theorem C10_nonpositive_max (state : PlannerState α) (args : PlanArgs α)
    (env : PlanEnv α) (buf : Nat → α)
    (hmax : args.maxWaypoints ≤ 0)
    (hret : (planTrajectory state args env buf).ret = RL_SUCCESS) :
    (planTrajectory state args env buf).waypointCount =
      some args.maxWaypoints ∧
    (planTrajectory state args env buf).buf = buf := by
  obtain ⟨m, sv, gv, p, st, path, hm, hsv, hgv, hacq, hver, hsol, hpath, heq⟩ :=
    planTrajectory_success_shape state args env buf hret
  rw [heq]
  constructor
  · show some (if args.maxWaypoints < (path.length : Int) then args.maxWaypoints
        else (path.length : Int)) = some args.maxWaypoints
    congr 1
    split
    · rfl
    · rename_i hc
      omega
  · show writeWaypoints buf m.dof path
      (if args.maxWaypoints < (path.length : Int) then args.maxWaypoints
       else (path.length : Int)).toNat = buf
    have hz : (if args.maxWaypoints < (path.length : Int) then args.maxWaypoints
        else (path.length : Int)).toNat = 0 := by
      split <;> omega
    rw [hz, writeWaypoints_zero]

/-- C10 witness: a concrete successful call with maxWaypoints of minus
three returns SUCCESS, reports minus three waypoints and writes nothing. -/
theorem C10_nonpositive_max_witness :
    (planTrajectory baseState negMaxArgs okEnv zeroBuf).ret = RL_SUCCESS ∧
    (planTrajectory baseState negMaxArgs okEnv zeroBuf).waypointCount =
      some (-3) ∧
    (planTrajectory baseState negMaxArgs okEnv zeroBuf).buf = zeroBuf := by
  have h := C10_nonpositive_max baseState negMaxArgs okEnv zeroBuf
    (by decide) (by decide)
  exact ⟨by decide, h.1, h.2⟩

/-- C8: after every PlanTrajectory call returning SUCCESS with positive
maxWaypoints, the reported waypoint count is the minimum of the optimized
path length and maxWaypoints, the first count rows are written row-major
with waypoints[i*dof+j] = path[i][j], and every buffer cell at or beyond
count*dof is untouched. -/
theorem C8_truncate_copy (state : PlannerState α) (args : PlanArgs α)
    (env : PlanEnv α) (buf : Nat → α) (m : SimpleModel α)
    (path : List (Config α))
    (hm : state.model = some m)
    (hpath : env.optimizedPath = .ok path)
    (hmax : 0 < args.maxWaypoints)
    (hret : (planTrajectory state args env buf).ret = RL_SUCCESS) :
    (planTrajectory state args env buf).waypointCount =
      some (min (path.length : Int) args.maxWaypoints) ∧
    (∀ i j : Nat, (i : Int) < min (path.length : Int) args.maxWaypoints →
      j < m.dof →
      (planTrajectory state args env buf).buf (i * m.dof + j) =
        (path.getD i []).getD j 0) ∧
    (∀ k : Nat,
      min (path.length : Int) args.maxWaypoints * (m.dof : Int) ≤ (k : Int) →
      (planTrajectory state args env buf).buf k = buf k) := by
  obtain ⟨m', sv, gv, p, st, path', hm', hsv, hgv, hacq, hver, hsol, hpath', heq⟩ :=
    planTrajectory_success_shape state args env buf hret
  rw [hm] at hm'
  injection hm' with hm2
  subst hm2
  rw [hpath] at hpath'
  injection hpath' with hp2
  subst hp2
  have hcmin : (if args.maxWaypoints < (path.length : Int) then args.maxWaypoints
      else (path.length : Int)) = min (path.length : Int) args.maxWaypoints := by
    rcases lt_or_le args.maxWaypoints (path.length : Int) with hc | hc
    · rw [if_pos hc, min_eq_right hc.le]
    · rw [if_neg (not_lt.mpr hc), min_eq_left hc]
  have hmin0 : 0 ≤ min (path.length : Int) args.maxWaypoints :=
    le_min (Int.natCast_nonneg _) hmax.le
  have htn : ((min (path.length : Int) args.maxWaypoints).toNat : Int) =
      min (path.length : Int) args.maxWaypoints := Int.toNat_of_nonneg hmin0
  have hminle : min (path.length : Int) args.maxWaypoints ≤ (path.length : Int) :=
    min_le_left _ _
  rw [heq]
  refine ⟨?_, ?_, ?_⟩
  · show some (if args.maxWaypoints < (path.length : Int) then args.maxWaypoints
        else (path.length : Int)) = some (min (path.length : Int) args.maxWaypoints)
    rw [hcmin]
  · intro i j hi hj
    show writeWaypoints buf m.dof path
      (if args.maxWaypoints < (path.length : Int) then args.maxWaypoints
       else (path.length : Int)).toNat (i * m.dof + j) = (path.getD i []).getD j 0
    rw [hcmin]
    apply writeWaypoints_hit
    · omega
    · omega
    · exact hj
  · intro k hk
    show writeWaypoints buf m.dof path
      (if args.maxWaypoints < (path.length : Int) then args.maxWaypoints
       else (path.length : Int)).toNat k = buf k
    rw [hcmin]
    apply writeWaypoints_untouched
    have hcast : (((min (path.length : Int) args.maxWaypoints).toNat * m.dof : Nat) : Int)
        ≤ (k : Int) := by
      push_cast [htn]
      exact hk
    exact_mod_cast hcast

/-- C8 witness: a concrete successful call with a two-row optimized path
and room for one hundred waypoints reports two waypoints, writes both rows
row-major and leaves the rest of the buffer untouched. -/
theorem C8_truncate_copy_witness :
    (planTrajectory baseState defaultArgs okEnv zeroBuf).ret = RL_SUCCESS ∧
    (planTrajectory baseState defaultArgs okEnv zeroBuf).waypointCount =
      some 2 ∧
    (planTrajectory baseState defaultArgs okEnv zeroBuf).buf (1 * 3 + 2) = 1 ∧
    (planTrajectory baseState defaultArgs okEnv zeroBuf).buf 7 = zeroBuf 7 := by
  have h := C8_truncate_copy baseState defaultArgs okEnv zeroBuf mModel
    [[0, 0, 0], [1, 1, 1]] rfl rfl (by decide) (by decide)
  refine ⟨by decide, ?_, ?_, ?_⟩
  · rw [h.1]
    decide
  · have h2 := h.2.1 1 2 (by decide) (by decide)
    simpa using h2
  · exact h.2.2 7 (by decide)

/-- C3 amended: on every return other than SUCCESS the waypoint buffer is
untouched; on every error other than PLANNING_FAILED the waypoint count is
not written; a PLANNING_FAILED return writes the count only on the
solve-returned-false path, and then writes zero.  (The claim as stated is
false: PLANNING_FAILED from the pre-solve verify failure or from a mapped
exception leaves the count unwritten.) -/
theorem C3_failure_outputs (state : PlannerState α) (args : PlanArgs α)
    (env : PlanEnv α) (buf : Nat → α) :
    ((planTrajectory state args env buf).ret ≠ RL_SUCCESS →
      (planTrajectory state args env buf).buf = buf) ∧
    ((planTrajectory state args env buf).ret ≠ RL_SUCCESS →
      (planTrajectory state args env buf).ret ≠ RL_ERROR_PLANNING_FAILED →
      (planTrajectory state args env buf).waypointCount = none) ∧
    ((planTrajectory state args env buf).ret = RL_ERROR_PLANNING_FAILED →
      (planTrajectory state args env buf).waypointCount = none ∨
      ((planTrajectory state args env buf).waypointCount = some 0 ∧
        env.solve = .ok false)) := by
  unfold planTrajectory finishPlan
  repeat' split
  all_goals
    simp_all [RL_SUCCESS, RL_ERROR_INVALID_POINTER, RL_ERROR_NOT_INITIALIZED,
      RL_ERROR_INVALID_PARAMETER, RL_ERROR_PLANNING_FAILED, RL_ERROR_EXCEPTION]

/-- C3 witness: on a concrete call failing pre-solve verification the
buffer is untouched and the count is either unwritten or written as zero. -/
theorem C3_failure_outputs_witness :
    (planTrajectory baseState defaultArgs failVerifyEnv zeroBuf).buf = zeroBuf ∧
    ((planTrajectory baseState defaultArgs failVerifyEnv zeroBuf).waypointCount = none ∨
      ((planTrajectory baseState defaultArgs failVerifyEnv zeroBuf).waypointCount = some 0 ∧
        failVerifyEnv.solve = .ok false)) := by
  have h := C3_failure_outputs baseState defaultArgs failVerifyEnv zeroBuf
  exact ⟨h.1 (by decide), h.2.2 (by decide)⟩

/-- C3 counterexample: a call whose pre-solve verify fails returns
PLANNING_FAILED yet does not write the waypoint count, against the claim
that every PLANNING_FAILED return sets it to zero. -/
theorem C3_counterexample :
    (planTrajectory baseState defaultArgs failVerifyEnv zeroBuf).ret =
      RL_ERROR_PLANNING_FAILED ∧
    (planTrajectory baseState defaultArgs failVerifyEnv zeroBuf).waypointCount =
      none := by
  exact ⟨by decide, by decide⟩

theorem planTrajectory_goalUsed_shape (state : PlannerState α)
    (args : PlanArgs α) (env : PlanEnv α) (buf : Nat → α) (gv : Config α)
    (hg : (planTrajectory state args env buf).goalUsed = some gv) :
    ∃ m sv, state.model = some m ∧ resolveStart state m args = .ok sv ∧
      resolveGoal state m args sv = .ok gv ∧
      (planTrajectory state args env buf).startUsed = some sv := by
  unfold planTrajectory at hg
  split at hg
  · simp at hg
  rename_i hnull
  split at hg
  · simp at hg
  rename_i hinit
  split at hg
  · simp at hg
  rename_i m hm
  split at hg
  · simp at hg
  rename_i sv hsv
  split at hg
  · simp at hg
  rename_i gv0 hgv
  split at hg
  · simp at hg
  rename_i p st hacq
  have hu := finishPlan_used st p sv gv0 m.dof args env buf
  rw [hu.2] at hg
  injection hg with hg2
  subst hg2
  refine ⟨m, sv, hm, hsv, hgv, ?_⟩
  unfold planTrajectory
  rw [if_neg hnull, if_neg hinit]
  simp only [hm, hsv, hgv, hacq]
  exact hu.1

/-- C1 amended: when the goal of a PlanTrajectory call comes from the
per-call goal parameter, useZAxis is zero and dof is at least three, the
goal vector bound to the planner has its last component overwritten with
the last component of the effective start.  (The claim as stated is false:
a call that falls back to the stored goal applies no such constraint.) -/
theorem C1_zaxis_param_goal (state : PlannerState α) (args : PlanArgs α)
    (env : PlanEnv α) (buf : Nat → α) (m : SimpleModel α) (sv gv : Config α)
    (hm : state.model = some m)
    (hz : args.useZAxis = 0) (hdof : 3 ≤ m.dof)
    (hgoal : args.goal.isSome = true) (hgs : 0 < args.goalSize)
    (hs : (planTrajectory state args env buf).startUsed = some sv)
    (hg : (planTrajectory state args env buf).goalUsed = some gv) :
    gv.getD (m.dof - 1) 0 = sv.getD (m.dof - 1) 0 := by
  obtain ⟨m', sv', hm', hsv, hgv, hsu⟩ :=
    planTrajectory_goalUsed_shape state args env buf gv hg
  rw [hm] at hm'
  injection hm' with hmm
  subst hmm
  rw [hsu] at hs
  injection hs with hss
  subst hss
  unfold resolveGoal at hgv
  rw [if_pos ⟨hgoal, hgs⟩] at hgv
  split at hgv
  · simp at hgv
  injection hgv with hgv2
  rw [if_pos ⟨hz, hdof⟩] at hgv2
  subst hgv2
  unfold constrainZAxis
  rw [if_pos ?_]
  · have ht : ((m.dof : Int) - 1).toNat = m.dof - 1 := by omega
    rw [ht]
    apply getD_set_self
    rw [readConfig_length]
    omega
  · constructor
    · omega
    · rw [readConfig_length]
      omega

/-- C1 witness: a concrete call passing goal [1, 1, 9] with useZAxis zero
against stored start [0, 0, 0] binds the constrained goal [1, 1, 0], whose
last component equals the start last component. -/
theorem C1_zaxis_param_goal_witness :
    (planTrajectory baseState zGoalArgs failVerifyEnv zeroBuf).startUsed =
      some [0, 0, 0] ∧
    (planTrajectory baseState zGoalArgs failVerifyEnv zeroBuf).goalUsed =
      some [1, 1, 0] ∧
    ([1, 1, 0] : Config ℚ).getD (mModel.dof - 1) 0 =
      ([0, 0, 0] : Config ℚ).getD (mModel.dof - 1) 0 := by
  have h := C1_zaxis_param_goal baseState zGoalArgs failVerifyEnv zeroBuf
    mModel [0, 0, 0] [1, 1, 0] rfl rfl (by decide) (by decide) (by decide)
    (by decide) (by decide)
  exact ⟨by decide, by decide, h⟩

/-- C1 counterexample: a call on an initialized three-dof session with
useZAxis zero that uses the stored goal binds that goal unchanged: its last
component differs from the start last component, so the claimed overwrite
does not happen for stored goals. -/
theorem C1_zaxis_counterexample :
    baseState.initialized = true ∧
    mModel.dof = 3 ∧
    (planTrajectory baseState { defaultArgs with useZAxis := 0 }
      failVerifyEnv zeroBuf).startUsed = some [0, 0, 0] ∧
    (planTrajectory baseState { defaultArgs with useZAxis := 0 }
      failVerifyEnv zeroBuf).goalUsed = some [1, 1, 1] ∧
    ¬(([1, 1, 1] : Config ℚ).getD 2 0 = ([0, 0, 0] : Config ℚ).getD 2 0) := by
  exact ⟨rfl, rfl, by decide, by decide, by decide⟩

theorem acquirePlanner_lazy (state : PlannerState α) (args : PlanArgs α)
    (p0 : PlannerComp α)
    (hp : state.planner = none)
    (hcp : createPlanner (effectivePlannerKind state args)
      (if 0 < args.delta then args.delta else state.delta)
      (if 0 < args.epsilon then args.epsilon else state.epsilon) = some p0) :
    ∃ st, acquirePlanner state args =
      (.ok { p0 with duration :=
        if 0 < args.timeoutMs then args.timeoutMs else state.timeoutMs }, st) ∧
      st.delta = (if 0 < args.delta then args.delta else state.delta) ∧
      st.epsilon = (if 0 < args.epsilon then args.epsilon else state.epsilon) ∧
      st.timeoutMs = (if 0 < args.timeoutMs then args.timeoutMs else state.timeoutMs) ∧
      st.verifier = (match state.verifier with
        | some d => some d
        | none => some (if 0 < args.delta then args.delta else state.delta)) ∧
      st.planner = some { p0 with duration :=
        if 0 < args.timeoutMs then args.timeoutMs else state.timeoutMs } := by
  unfold acquirePlanner
  rw [hp]
  dsimp only
  cases hs1 : state.sampler <;>
    simp only [hs1, Bool.false_eq_true, if_true, if_false] <;>
    rcases hv1 : state.verifier with _ | d <;>
    simp only [hv1] <;>
    cases hn1 : state.nearestNeighbors <;>
    simp only [hn1, Bool.false_eq_true, if_true, if_false] <;>
    rw [hcp] <;>
    first
    | exact ⟨_, rfl, rfl, rfl, rfl, rfl, rfl⟩
    | exact ⟨_, rfl, rfl, rfl, rfl, by rw [hv1], rfl⟩

theorem planTrajectory_to_finish (state : PlannerState α) (args : PlanArgs α)
    (env : PlanEnv α) (buf : Nat → α) (m : SimpleModel α)
    (sv gv : Config α) (p : PlannerComp α) (st : PlannerState α)
    (hnull : args.waypointsNull = false) (hnull2 : args.waypointCountNull = false)
    (hinit : state.initialized = true) (hm : state.model = some m)
    (hsv : resolveStart state m args = .ok sv)
    (hgv : resolveGoal state m args sv = .ok gv)
    (hacq : acquirePlanner state args = (.ok p, st)) :
    planTrajectory state args env buf = finishPlan st p sv gv m.dof args env buf := by
  unfold planTrajectory
  have h1 : ¬(args.waypointsNull = true ∨ args.waypointCountNull = true) := by
    simp [hnull, hnull2]
  have h2 : ¬¬(state.initialized = true) := by simp [hinit]
  rw [if_neg h1, if_neg h2]
  simp only [hm, hsv, hgv, hacq]

/-- C6 amended: a PlanTrajectory call on an initialized session without a
persistent planner whose non-empty kind argument names none of the known
planner kinds returns INVALID_PARAMETER once start and goal resolve.  (The
claim as stated is false: when a persistent planner exists the kind
argument is ignored entirely.) -/
theorem C6_unknown_kind (state : PlannerState α) (args : PlanArgs α)
    (env : PlanEnv α) (buf : Nat → α) (m : SimpleModel α) (s : String)
    (sv gv : Config α)
    (hnull : args.waypointsNull = false) (hnull2 : args.waypointCountNull = false)
    (hinit : state.initialized = true) (hm : state.model = some m)
    (hplanner : state.planner = none)
    (hkind : args.plannerType = some s) (hlen : 0 < s.length)
    (hunknown : knownPlannerKind s = false)
    (hsv : resolveStart state m args = .ok sv)
    (hgv : resolveGoal state m args sv = .ok gv) :
    (planTrajectory state args env buf).ret = RL_ERROR_INVALID_PARAMETER := by
  unfold planTrajectory
  have h1 : ¬(args.waypointsNull = true ∨ args.waypointCountNull = true) := by
    simp [hnull, hnull2]
  have h2 : ¬¬(state.initialized = true) := by simp [hinit]
  rw [if_neg h1, if_neg h2]
  simp only [hm, hsv, hgv]
  have hek : effectivePlannerKind state args = s := by
    unfold effectivePlannerKind
    rw [hkind]
    dsimp only
    rw [if_pos hlen]
  have hcp : createPlanner (effectivePlannerKind state args)
      (if 0 < args.delta then args.delta else state.delta)
      (if 0 < args.epsilon then args.epsilon else state.epsilon) = none := by
    rw [hek]
    exact createPlanner_none hunknown _ _
  obtain ⟨st3, hacq⟩ : ∃ st3, acquirePlanner state args =
      (.error RL_ERROR_INVALID_PARAMETER, st3) := by
    unfold acquirePlanner
    rw [hplanner]
    dsimp only
    rw [hcp]
    exact ⟨_, rfl⟩
  simp only [hacq]

/-- C6 witness: with no persistent planner, the unknown kind sbl makes the
call fail with INVALID_PARAMETER. -/
theorem C6_unknown_kind_witness :
    (planTrajectory lazyState sblArgs failVerifyEnv zeroBuf).ret =
      RL_ERROR_INVALID_PARAMETER :=
  C6_unknown_kind lazyState sblArgs failVerifyEnv zeroBuf mModel "sbl"
    [0, 0, 0] [1, 1, 1] rfl rfl rfl rfl rfl rfl (by decide) (by decide) rfl rfl

/-- C6 counterexample: when a persistent planner exists, passing the
unknown kind sbl does not return INVALID_PARAMETER; the argument is
ignored and the call proceeds (failing verification here). -/
theorem C6_counterexample :
    baseState.planner.isSome = true ∧
    knownPlannerKind "sbl" = false ∧
    (planTrajectory baseState sblArgs failVerifyEnv zeroBuf).ret =
      RL_ERROR_PLANNING_FAILED ∧
    (planTrajectory baseState sblArgs failVerifyEnv zeroBuf).ret ≠
      RL_ERROR_INVALID_PARAMETER := by
  exact ⟨rfl, by decide, by decide, by decide⟩

/-- C7 amended: when a persistent planner exists, the per-call delta and
epsilon arguments are ignored, and only a positive timeoutMs takes effect;
when the planner is constructed during the call, a positive delta, epsilon
or timeoutMs argument is used and a non-positive one falls back to the
stored value (an already existing verifier keeps its old delta).  (The
claim as stated is false for the persistent-planner case.) -/
theorem C7_overrides (state : PlannerState α) (args : PlanArgs α)
    (env : PlanEnv α) (buf : Nat → α) (m : SimpleModel α) (sv gv : Config α)
    (hnull : args.waypointsNull = false) (hnull2 : args.waypointCountNull = false)
    (hinit : state.initialized = true) (hm : state.model = some m)
    (hsv : resolveStart state m args = .ok sv)
    (hgv : resolveGoal state m args sv = .ok gv) :
    (∀ p, state.planner = some p →
      (planTrajectory state args env buf).state.planner =
        some { p with startPtr := some sv, goalPtr := some gv,
                      duration := if 0 < args.timeoutMs then args.timeoutMs
                                  else p.duration } ∧
      (planTrajectory state args env buf).state.verifier = state.verifier ∧
      (planTrajectory state args env buf).state.delta = state.delta ∧
      (planTrajectory state args env buf).state.epsilon = state.epsilon ∧
      (planTrajectory state args env buf).state.timeoutMs = state.timeoutMs) ∧
    (∀ p0, state.planner = none →
      createPlanner (effectivePlannerKind state args)
        (if 0 < args.delta then args.delta else state.delta)
        (if 0 < args.epsilon then args.epsilon else state.epsilon) = some p0 →
      (planTrajectory state args env buf).state.planner =
        some { p0 with
          startPtr := some sv, goalPtr := some gv,
          duration := if 0 < args.timeoutMs then args.timeoutMs
                      else state.timeoutMs } ∧
      (planTrajectory state args env buf).state.delta =
        (if 0 < args.delta then args.delta else state.delta) ∧
      (planTrajectory state args env buf).state.epsilon =
        (if 0 < args.epsilon then args.epsilon else state.epsilon) ∧
      (planTrajectory state args env buf).state.timeoutMs =
        (if 0 < args.timeoutMs then args.timeoutMs else state.timeoutMs) ∧
      (planTrajectory state args env buf).state.verifier =
        (match state.verifier with
         | some d => some d
         | none => some (if 0 < args.delta then args.delta else state.delta))) := by
  constructor
  · intro p hp
    have hacq : acquirePlanner state args = (.ok p, state) := by
      unfold acquirePlanner
      rw [hp]
    rw [planTrajectory_to_finish state args env buf m sv gv p state
      hnull hnull2 hinit hm hsv hgv hacq]
    rw [finishPlan_state, bindPlanner_eq]
    exact ⟨rfl, rfl, rfl, rfl, rfl⟩
  · intro p0 hp hcp
    obtain ⟨st, hacq, hd, he, ht, hv, hpl⟩ :=
      acquirePlanner_lazy state args p0 hp hcp
    rw [planTrajectory_to_finish state args env buf m sv gv _ st
      hnull hnull2 hinit hm hsv hgv hacq]
    rw [finishPlan_state, bindPlanner_eq]
    refine ⟨?_, hd, he, ht, hv⟩
    show some _ = some _
    congr 1
    by_cases htm : 0 < args.timeoutMs
    · simp only [if_pos htm]
    · simp only [if_neg htm]

/-- C7 witness: with no persistent planner and positive overrides, the
constructed planner carries the override values and the stored parameters
are replaced by them. -/
theorem C7_overrides_witness :
    (planTrajectory lazyState overrideArgs failVerifyEnv zeroBuf).state.delta =
      (5 : ℚ) ∧
    (planTrajectory lazyState overrideArgs failVerifyEnv zeroBuf).state.epsilon =
      (7 : ℚ) ∧
    (planTrajectory lazyState overrideArgs failVerifyEnv zeroBuf).state.timeoutMs = 9 := by
  have hd : (0 : ℚ) < overrideArgs.delta := by
    show (0 : ℚ) < 5
    decide
  have he : (0 : ℚ) < overrideArgs.epsilon := by
    show (0 : ℚ) < 7
    decide
  have h := (C7_overrides lazyState overrideArgs failVerifyEnv zeroBuf mModel
    [0, 0, 0] [1, 1, 1] rfl rfl rfl rfl rfl rfl).2
    { kind := "rrtConCon"
      params := .rrtConCon
        (if 0 < overrideArgs.delta then overrideArgs.delta else lazyState.delta)
        (if 0 < overrideArgs.epsilon then overrideArgs.epsilon else lazyState.epsilon)
      duration := 0, startPtr := none, goalPtr := none } rfl rfl
  refine ⟨?_, ?_, ?_⟩
  · rw [h.2.1, if_pos hd]
    decide
  · rw [h.2.2.1, if_pos he]
    decide
  · rw [h.2.2.2.1]
    decide

/-- C7 counterexample: with a persistent planner whose delta is one tenth,
a call passing delta one half leaves the planner delta at one tenth: the
positive per-call delta is not the value the planner uses. -/
theorem C7_counterexample :
    (0 : ℚ) < overrideArgs.delta ∧
    (planTrajectory baseState overrideArgs failVerifyEnv zeroBuf).state.planner.map
      (fun p => p.params.deltaOf) = some (some (2 : ℚ)) ∧
    ¬((2 : ℚ) = overrideArgs.delta) := by
  refine ⟨?_, by decide, by decide⟩
  show (0 : ℚ) < 5
  decide

theorem isSome_of_not_isNone {β : Type} {o : Option β}
    (h : ¬(o.isNone = true)) : o.isSome = true := by
  cases o
  · exact absurd rfl h
  · rfl

theorem not_isNone_of_isSome {β : Type} {o : Option β}
    (h : o.isSome = true) : ¬(o.isNone = true) := by
  cases o
  · exact absurd h (by simp)
  · simp

theorem isSome_or_of_not_both_isNone {β γ : Type} {o : Option β} {u : Option γ}
    (h : ¬(o.isNone = true ∧ u.isNone = true)) :
    o.isSome = true ∨ u.isSome = true := by
  cases o
  · cases u
    · exact absurd ⟨rfl, rfl⟩ h
    · exact Or.inr rfl
  · exact Or.inl rfl

theorem not_both_isNone_of_isSome_or {β γ : Type} {o : Option β} {u : Option γ}
    (h : o.isSome = true ∨ u.isSome = true) :
    ¬(o.isNone = true ∧ u.isNone = true) := by
  rintro ⟨h1, h2⟩
  cases o <;> cases u <;> simp_all

/-- C2 amended: IsValidConfiguration returns only 0 or 1, and returns 1
exactly when the session is initialized and fully wired, the size matches
dof, the joint-limit predicate accepts the configuration, and the verifier
probe on the zero-length path either accepts or throws: a throw falls back
to the joint-limit verdict instead of returning 0.  (The claim as stated is
false: an exception in the collision probe yields 1, not 0.) -/
theorem C2_boolean_query (state : PlannerState α)
    (config : Option (Config α)) (configSize : Int) (env : Except Exc Bool) :
    ((isValidConfiguration state config configSize env).1 = 0 ∨
     (isValidConfiguration state config configSize env).1 = 1) ∧
    ((isValidConfiguration state config configSize env).1 = 1 ↔
      (config.isSome = true ∧ state.initialized = true ∧
       ∃ m, state.model = some m ∧ state.kinematics.isSome = true ∧
         (m.kin.isSome = true ∨ m.mdl.isSome = true) ∧
         m.robotModel.isSome = true ∧ m.scenePtr.isSome = true ∧
         configSize = (m.dof : Int) ∧
         m.isValid (readConfig config m.dof) = .ok true ∧
         (env = .ok true ∨ ∃ e, env = .error e))) := by
  constructor
  · unfold isValidConfiguration
    dsimp only
    repeat' split
    all_goals simp
  · constructor
    · intro h1
      unfold isValidConfiguration at h1
      dsimp only at h1
      split at h1
      · simp at h1
      rename_i hc
      split at h1
      · simp at h1
      rename_i hi
      split at h1
      · simp at h1
      rename_i m hm
      split at h1
      · simp at h1
      rename_i hk
      split at h1
      · simp at h1
      rename_i hkm
      split at h1
      · simp at h1
      rename_i hr
      split at h1
      · simp at h1
      rename_i hsz
      split at h1
      · simp at h1
      · simp at h1
      rename_i hval
      push_neg at hr
      have henv2 : env = .ok true ∨ ∃ e, env = .error e := by
        rcases henv : env with e | b
        · exact Or.inr ⟨e, rfl⟩
        · cases b
          · exfalso
            rw [henv] at h1
            simp at h1
          · exact Or.inl rfl
      exact ⟨isSome_of_not_isNone hc, not_not.mp hi, m, hm,
        isSome_of_not_isNone hk, isSome_or_of_not_both_isNone hkm,
        isSome_of_not_isNone hr.1, isSome_of_not_isNone hr.2,
        not_not.mp hsz, hval, henv2⟩
    · rintro ⟨hc, hi, m, hm, hk, hkm, hr, hs, hsz, hval, henv⟩
      unfold isValidConfiguration
      dsimp only
      rw [if_neg (not_isNone_of_isSome hc), if_neg (not_not_intro hi)]
      simp only [hm]
      rw [if_neg (not_isNone_of_isSome hk),
        if_neg (not_both_isNone_of_isSome_or hkm),
        if_neg (by
          push_neg
          exact ⟨not_isNone_of_isSome hr, not_isNone_of_isSome hs⟩),
        if_neg (not_not_intro hsz)]
      simp only [hval]
      rcases henv with henv | ⟨e, henv⟩ <;> rw [henv]

/-- C2 witness: a fully wired session with an accepting joint-limit
predicate and an accepting verifier yields 1. -/
theorem C2_boolean_query_witness :
    (isValidConfiguration baseState (some [2, 2, 2]) 3
      (Except.ok true : Except Exc Bool)).1 = 1 :=
  (C2_boolean_query baseState (some [2, 2, 2]) 3 (.ok true)).2.mpr
    ⟨rfl, rfl, mModel, rfl, rfl, Or.inl rfl, rfl, rfl, by decide, rfl,
      Or.inl rfl⟩

/-- C2 counterexample: an exception thrown by the collision probe yields 1
even though the verifier did not accept, against the claim that every
exception returns 0. -/
theorem C2_counterexample :
    (isValidConfiguration baseState (some [0, 0, 0]) 3
      (Except.error Exc.std : Except Exc Bool)).1 = 1 ∧
    (Except.error Exc.std : Except Exc Bool) ≠ .ok true := by
  exact ⟨by decide, by simp⟩

theorem setStart_success_shape (state : PlannerState α)
    (c : Option (Config α)) (n : Int)
    (h : (setStartConfiguration state c n).1 = RL_SUCCESS) :
    ∃ m, state.model = some m ∧
      m.isValid (readConfig c m.dof) = .ok true ∧
      (setStartConfiguration state c n).2.start =
        some (readConfig c m.dof) := by
  unfold setStartConfiguration at h
  dsimp only at h
  split at h
  · simp [RL_SUCCESS, RL_ERROR_INVALID_POINTER] at h
  rename_i hc
  split at h
  · simp [RL_SUCCESS, RL_ERROR_INVALID_PARAMETER] at h
  rename_i hn
  split at h
  · simp [RL_SUCCESS, RL_ERROR_NOT_INITIALIZED] at h
  rename_i hi
  split at h
  · simp [RL_SUCCESS, RL_ERROR_NOT_INITIALIZED] at h
  rename_i m hm
  split at h
  · simp [RL_SUCCESS, RL_ERROR_INVALID_PARAMETER] at h
  rename_i hsz
  split at h
  · simp [RL_SUCCESS, RL_ERROR_EXCEPTION] at h
  · simp [RL_SUCCESS, RL_ERROR_INVALID_PARAMETER] at h
  rename_i hval
  refine ⟨m, hm, hval, ?_⟩
  unfold setStartConfiguration
  dsimp only
  rw [if_neg hc, if_neg hn, if_neg hi]
  simp only [hm]
  rw [if_neg hsz]
  simp only [hval]
  split <;> rfl

theorem setGoal_success_shape (state : PlannerState α)
    (c : Option (Config α)) (n : Int)
    (h : (setGoalConfiguration state c n).1 = RL_SUCCESS) :
    ∃ m, state.model = some m ∧
      m.isValid (readConfig c m.dof) = .ok true ∧
      (setGoalConfiguration state c n).2.goal =
        some (readConfig c m.dof) := by
  unfold setGoalConfiguration at h
  dsimp only at h
  split at h
  · simp [RL_SUCCESS, RL_ERROR_INVALID_POINTER] at h
  rename_i hc
  split at h
  · simp [RL_SUCCESS, RL_ERROR_INVALID_PARAMETER] at h
  rename_i hn
  split at h
  · simp [RL_SUCCESS, RL_ERROR_NOT_INITIALIZED] at h
  rename_i hi
  split at h
  · simp [RL_SUCCESS, RL_ERROR_NOT_INITIALIZED] at h
  rename_i m hm
  split at h
  · simp [RL_SUCCESS, RL_ERROR_INVALID_PARAMETER] at h
  rename_i hsz
  split at h
  · simp [RL_SUCCESS, RL_ERROR_EXCEPTION] at h
  · simp [RL_SUCCESS, RL_ERROR_INVALID_PARAMETER] at h
  rename_i hval
  refine ⟨m, hm, hval, ?_⟩
  unfold setGoalConfiguration
  dsimp only
  rw [if_neg hc, if_neg hn, if_neg hi]
  simp only [hm]
  rw [if_neg hsz]
  simp only [hval]
  split <;> rfl

/-- C4 amended: the vector stored by a SetStartConfiguration or
SetGoalConfiguration call that returns SUCCESS has size dof and is accepted
by the planning-model validity predicate; a call on a valid-size
configuration that fails the validity check returns INVALID_PARAMETER but
still stores the rejected vector.  (The claim as stated is false: the
stored-configuration invariant is not preserved by a call that returns
INVALID_PARAMETER from the validity check.) -/
theorem C4_stored_configs (state : PlannerState α) (c : Option (Config α))
    (n : Int) (m : SimpleModel α) (hm : state.model = some m) :
    ((setStartConfiguration state c n).1 = RL_SUCCESS →
      ∃ v, (setStartConfiguration state c n).2.start = some v ∧
        v.length = m.dof ∧ m.isValid v = .ok true) ∧
    ((setGoalConfiguration state c n).1 = RL_SUCCESS →
      ∃ v, (setGoalConfiguration state c n).2.goal = some v ∧
        v.length = m.dof ∧ m.isValid v = .ok true) ∧
    (state.initialized = true → c.isSome = true → 0 < n →
      m.isValid (readConfig c m.dof) = .ok false → n = (m.dof : Int) →
      (setStartConfiguration state c n).1 = RL_ERROR_INVALID_PARAMETER ∧
      (setStartConfiguration state c n).2.start =
        some (readConfig c m.dof)) := by
  refine ⟨?_, ?_, ?_⟩
  · intro h
    obtain ⟨m', hm', hval, hst⟩ := setStart_success_shape state c n h
    rw [hm] at hm'
    injection hm' with hmm
    subst hmm
    exact ⟨readConfig c m.dof, hst, readConfig_length _ _, hval⟩
  · intro h
    obtain ⟨m', hm', hval, hst⟩ := setGoal_success_shape state c n h
    rw [hm] at hm'
    injection hm' with hmm
    subst hmm
    exact ⟨readConfig c m.dof, hst, readConfig_length _ _, hval⟩
  · intro hi hc hn hval hsz
    unfold setStartConfiguration
    dsimp only
    rw [if_neg (not_isNone_of_isSome hc), if_neg (by omega : ¬(n ≤ 0)),
      if_neg (not_not_intro hi)]
    simp only [hm]
    rw [if_neg (not_not_intro hsz)]
    simp only [hval]
    constructor <;> trivial

/-- C4 witness: on a session whose model rejects first components above
one, storing [5, 5] returns INVALID_PARAMETER and the rejected vector is
left stored. -/
theorem C4_stored_configs_witness :
    (setStartConfiguration limitState (some [5, 5]) 2).1 =
      RL_ERROR_INVALID_PARAMETER ∧
    (setStartConfiguration limitState (some [5, 5]) 2).2.start =
      some (readConfig (some [5, 5]) limitModel.dof) :=
  (C4_stored_configs limitState (some [5, 5]) 2 limitModel rfl).2.2
    rfl rfl (by decide) (by decide) (by decide)

/-- C4 counterexample: the failing SetStartConfiguration call stores the
invalid vector, so the claimed invariant does not hold on the resulting
initialized session. -/
theorem C4_counterexample :
    (setStartConfiguration limitState (some [5, 5]) 2).1 =
      RL_ERROR_INVALID_PARAMETER ∧
    (setStartConfiguration limitState (some [5, 5]) 2).2.start =
      some [5, 5] ∧
    ¬configsValidInv (setStartConfiguration limitState (some [5, 5]) 2).2 := by
  refine ⟨by decide, by decide, ?_⟩
  intro h
  obtain ⟨m, hm, hstart, _⟩ := h (by decide)
  have hmod : (setStartConfiguration limitState (some [5, 5]) 2).2.model =
      some limitModel := rfl
  rw [hmod] at hm
  injection hm with hmEq
  have hv := hstart [5, 5] (by decide)
  rw [← hmEq] at hv
  have hfalse : limitModel.isValid [5, 5] = Except.ok false := by decide
  rw [hfalse] at hv
  simp at hv

/-- C5 amended: the exactly-one-kinematics-view invariant is established by
every LoadScene call that returns SUCCESS and preserved by
SetStartConfiguration, SetGoalConfiguration, IsValidConfiguration and
PlanTrajectory.  (The claim as stated is false: a successful LoadKinematics
after initialization replaces the stored kinematics without rewiring the
planning model, so the planning model no longer references the current
kinematics.) -/
theorem C5_wiring :
    (∀ (state : PlannerState α) (xmlPath : Option String) (idx : Int)
      (env : SceneEnv α),
      (loadScene state xmlPath idx env).1 = RL_SUCCESS →
      wiredToCurrentKin (loadScene state xmlPath idx env).2) ∧
    (∀ (state : PlannerState α) (c : Option (Config α)) (n : Int),
      wiredToCurrentKin state →
      wiredToCurrentKin (setStartConfiguration state c n).2) ∧
    (∀ (state : PlannerState α) (c : Option (Config α)) (n : Int),
      wiredToCurrentKin state →
      wiredToCurrentKin (setGoalConfiguration state c n).2) ∧
    (∀ (state : PlannerState α) (c : Option (Config α)) (n : Int)
      (env : Except Exc Bool),
      wiredToCurrentKin state →
      wiredToCurrentKin (isValidConfiguration state c n env).2) ∧
    (∀ (state : PlannerState α) (args : PlanArgs α) (env : PlanEnv α)
      (buf : Nat → α),
      wiredToCurrentKin state →
      wiredToCurrentKin (planTrajectory state args env buf).state) := by
  have transport : ∀ s s' : PlannerState α, s'.model = s.model →
      s'.kinematics = s.kinematics → s'.initialized = s.initialized →
      wiredToCurrentKin s → wiredToCurrentKin s' := by
    intro s s' h1 h2 h3 hw hinit
    rw [h3] at hinit
    obtain ⟨m, kid, isDyn, hm, hk, hc⟩ := hw hinit
    exact ⟨m, kid, isDyn, h1.trans hm, h2.trans hk, hc⟩
  refine ⟨?_, ?_, ?_, ?_, ?_⟩
  · intro state xmlPath idx env
    unfold loadScene
    dsimp only
    repeat' split
    all_goals intro h
    all_goals try (simp [RL_SUCCESS, RL_ERROR_INVALID_POINTER,
      RL_ERROR_LOAD_FAILED, RL_ERROR_EXCEPTION, RL_ERROR_INVALID_PARAMETER,
      RL_ERROR_NOT_INITIALIZED] at h)
    · rename_i hkin
      intro hinit
      exact ⟨_, _, _, rfl, hkin, Or.inl ⟨rfl, rfl, rfl⟩⟩
    · rename_i hkin
      intro hinit
      exact ⟨_, _, _, rfl, hkin, Or.inr ⟨rfl, rfl, rfl⟩⟩
    · rename_i hcond hrob hx hkin
      rw [hkin] at hcond
      exact absurd ⟨rfl, rfl⟩ hcond
  · intro state c n hw
    have h := setStart_core state c n
    exact transport _ _ h.1 h.2.1 h.2.2 hw
  · intro state c n hw
    have h := setGoal_core state c n
    exact transport _ _ h.1 h.2.1 h.2.2 hw
  · intro state c n env hw
    have h := isValidConfiguration_core state c n env
    exact transport _ _ h.1 h.2.1 h.2.2 hw
  · intro state args env buf hw
    have h := planTrajectory_core state args env buf
    exact transport _ _ h.1 h.2.1 h.2.2 hw

/-- C5 witness: loading kinematics and then a scene on a fresh session
yields an initialized session wired to the current kinematics. -/
theorem C5_wiring_witness : wiredToCurrentKin sessC :=
  (C5_wiring (α := ℚ)).1 sessB (some "scene.xml") 0 sceneEnvA (by decide)

/-- C5 counterexample: a successful LoadKinematics performed after
LoadScene stores kinematics object 2 while the planning model still
references object 1, so the invariant is not re-established by every
subsequent successful operation. -/
theorem C5_counterexample :
    (loadKinematics sessA (some "kin.xml") kinEnvA).1 = RL_SUCCESS ∧
    (loadScene sessB (some "scene.xml") 0 sceneEnvA).1 = RL_SUCCESS ∧
    (loadKinematics sessC (some "kin2.xml") kinEnvB).1 = RL_SUCCESS ∧
    ¬wiredToCurrentKin sessD := by
  refine ⟨by decide, by decide, by decide, ?_⟩
  intro h
  obtain ⟨m, kid, isDyn, hm, hk, hc⟩ := h (by decide)
  have hkfix : sessD.kinematics = some (2, false) := by decide
  rw [hkfix] at hk
  injection hk with hk2
  injection hk2 with hkid hdyn
  have hmfix : sessD.model =
      some ⟨some 1, none, some 20, some 10, 2, sceneEnvA.modelIsValid⟩ := rfl
  rw [hmfix] at hm
  injection hm with hm2
  rcases hc with ⟨hdyn2, _, _⟩ | ⟨_, hkin, _⟩
  · rw [← hdyn] at hdyn2
    simp at hdyn2
  · rw [← hm2] at hkin
    rw [← hkid] at hkin
    simp at hkin

/-- C9: the Descriptor Loader converts units and applies defaults exactly:
a delta, epsilon or q element with a deg unit and numeric text x is stored
as x times pi over 180 and any other unit marker leaves x unchanged; a
duration element in seconds is stored as integer milliseconds truncated
toward zero; absent elements yield delta 1, epsilon 0.001 and 120000 ms;
and a successful LoadPlanXml stores exactly these extracted values. -/
theorem C9_descriptor_units :
    (∀ d : PlanDescriptor ℝ, d.delta = none →
      descDelta (Real.pi / 180) d = 1) ∧
    (∀ (d : PlanDescriptor ℝ) (x : ℝ), d.delta = some (x, "deg") →
      descDelta (Real.pi / 180) d = x * (Real.pi / 180)) ∧
    (∀ (d : PlanDescriptor ℝ) (x : ℝ) (u : String), d.delta = some (x, u) →
      u ≠ "deg" → descDelta (Real.pi / 180) d = x) ∧
    (∀ d : PlanDescriptor ℝ, d.epsilon = none →
      descEpsilon (Real.pi / 180) d = 1 / 1000) ∧
    (∀ (d : PlanDescriptor ℝ) (x : ℝ), d.epsilon = some (x, "deg") →
      descEpsilon (Real.pi / 180) d = x * (Real.pi / 180)) ∧
    (∀ (d : PlanDescriptor ℝ) (x : ℝ) (u : String), d.epsilon = some (x, u) →
      u ≠ "deg" → descEpsilon (Real.pi / 180) d = x) ∧
    (∀ d : PlanDescriptor ℝ, d.duration = none → descTimeoutMs d = 120000) ∧
    (∀ (d : PlanDescriptor ℝ) (v : ℝ), d.duration = some v →
      descTimeoutMs d = cppDoubleToInt (v * 1000)) ∧
    (∀ v : ℝ, 0 ≤ v → cppDoubleToInt v = ⌊v⌋) ∧
    (∀ v : ℝ, v < 0 → cppDoubleToInt v = ⌈v⌉) ∧
    (∀ x : ℝ, convQ (Real.pi / 180) (x, "deg") = x * (Real.pi / 180)) ∧
    (∀ (x : ℝ) (u : String), u ≠ "deg" →
      convQ (Real.pi / 180) (x, u) = x) ∧
    (∀ (state : PlannerState ℝ) (xmlPath : Option String)
      (env : PlanXmlEnv ℝ) (d : PlanDescriptor ℝ),
      env.parseResult = .ok d →
      (loadPlanXml state xmlPath (Real.pi / 180) env).1 = RL_SUCCESS →
      (loadPlanXml state xmlPath (Real.pi / 180) env).2.delta =
        descDelta (Real.pi / 180) d ∧
      (loadPlanXml state xmlPath (Real.pi / 180) env).2.epsilon =
        descEpsilon (Real.pi / 180) d ∧
      (loadPlanXml state xmlPath (Real.pi / 180) env).2.timeoutMs =
        descTimeoutMs d ∧
      (∀ qs, d.startQ = some qs →
        (loadPlanXml state xmlPath (Real.pi / 180) env).2.start =
          some (qs.map (convQ (Real.pi / 180)))) ∧
      (∀ qs, d.goalQ = some qs →
        (loadPlanXml state xmlPath (Real.pi / 180) env).2.goal =
          some (qs.map (convQ (Real.pi / 180))))) := by
  refine ⟨?_, ?_, ?_, ?_, ?_, ?_, ?_, ?_, ?_, ?_, ?_, ?_, ?_⟩
  · intro d h
    simp only [descDelta, h]
  · intro d x h
    simp only [descDelta, h]
    rw [if_true]
  · intro d x u h hu
    simp only [descDelta, h]
    rw [if_neg hu]
  · intro d h
    simp only [descEpsilon, h]
  · intro d x h
    simp only [descEpsilon, h]
    rw [if_true]
  · intro d x u h hu
    simp only [descEpsilon, h]
    rw [if_neg hu]
  · intro d h
    simp only [descTimeoutMs, h]
  · intro d v h
    simp only [descTimeoutMs, h]
  · intro v hv
    unfold cppDoubleToInt
    rw [if_pos hv]
  · intro v hv
    unfold cppDoubleToInt
    rw [if_neg (not_le.mpr hv)]
  · intro x
    simp only [convQ]
    rw [if_true]
  · intro x u hu
    simp only [convQ]
    rw [if_neg hu]
  · intro state xmlPath env d hparse hret
    unfold loadPlanXml at hret
    dsimp only at hret
    split at hret
    · simp [RL_SUCCESS, RL_ERROR_INVALID_POINTER] at hret
    rename_i hp1
    split at hret
    · simp [RL_SUCCESS, RL_ERROR_LOAD_FAILED] at hret
    · simp [RL_SUCCESS, RL_ERROR_EXCEPTION] at hret
    rename_i d0 heqp
    rw [hparse] at heqp
    injection heqp with hd0
    subst hd0
    split at hret
    · simp [RL_SUCCESS, RL_ERROR_LOAD_FAILED] at hret
    rename_i hs1
    split at hret
    · simp [RL_SUCCESS, RL_ERROR_LOAD_FAILED] at hret
    rename_i hk1
    split at hret
    · rename_i hcond
      exact absurd hret hcond
    rename_i hr1
    split at hret
    · rename_i hcond
      exact absurd hret hcond
    rename_i hr2
    split at hret
    · simp [RL_SUCCESS, RL_ERROR_LOAD_FAILED] at hret
    rename_i p0 hcp
    rcases hsq : d.startQ with _ | qs0 <;>
      rcases hgq : d.goalQ with _ | qg0 <;>
      unfold loadPlanXml <;>
      rw [if_neg hp1] <;>
      simp only [hparse] <;>
      rw [if_neg hs1, if_neg hk1] <;>
      rw [if_neg hr1, if_neg hr2] <;>
      simp only [hsq, hgq, hcp] <;>
      refine ⟨?_, ?_, ?_, ?_, ?_⟩ <;>
      first
      | (rw [(loadScene_fields _ _ _ _).1, (loadKinematics_fields _ _ _).1])
      | (rw [(loadScene_fields _ _ _ _).2.1, (loadKinematics_fields _ _ _).2.1])
      | (rw [(loadScene_fields _ _ _ _).2.2.1,
          (loadKinematics_fields _ _ _).2.2.1])
      | (intro qs hqs
         first
         | (injection hqs with hq2
            subst hq2
            rfl)
         | injection hqs)

/-- C9 witness: concrete descriptors confirm the deg conversion, the
defaults and the truncation at explicit values. -/
theorem C9_descriptor_units_witness :
    descDelta (Real.pi / 180) degDesc = 2 * (Real.pi / 180) ∧
    descDelta (Real.pi / 180) emptyDesc = 1 ∧
    descEpsilon (Real.pi / 180) emptyDesc = 1 / 1000 ∧
    descTimeoutMs emptyDesc = 120000 ∧
    cppDoubleToInt (0 : ℝ) = ⌊(0 : ℝ)⌋ ∧
    convQ (Real.pi / 180) ((2 : ℝ), "deg") = 2 * (Real.pi / 180) := by
  have h := C9_descriptor_units
  exact ⟨h.2.1 degDesc 2 rfl, h.1 emptyDesc rfl,
    h.2.2.2.1 emptyDesc rfl,
    h.2.2.2.2.2.2.1 emptyDesc rfl,
    h.2.2.2.2.2.2.2.2.1 0 (le_refl 0),
    h.2.2.2.2.2.2.2.2.2.2.1 2⟩

end Claims

end RLWrapper
